import Mathlib

/-!
Verification development for the fb-ads-mcp-server repository (src/server.py).

The Python source is shallowly embedded: JSON values are modelled by the
inductive `JVal` (numbers as rationals), Python dictionaries by association
lists, raised exceptions by `Except PyErr`, and the HTTP layer by an explicit
`GetOutcome` describing what the network returned for one request.  Each
Python function of interest is translated into an executable Lean definition
over these types, and the claims are settled as theorems about those
definitions.
-/

/-- Python exception values that the embedded code can raise.  Each carries
the message string built at the raise site. -/
inductive PyErr where
  | httpError (msg : String)
  | requestException (msg : String)
  | valueError (msg : String)
  | keyError (msg : String)
  | typeError (msg : String)
  | attributeError (msg : String)
deriving DecidableEq, Repr

/-- `str(e)` for an exception: Python renders the single message argument
(`KeyError` reprs its key, quoting it). -/
def pyStrErr : PyErr → String
  | .httpError m => m
  | .requestException m => m
  | .valueError m => m
  | .keyError m => "\x27" ++ m ++ "\x27"
  | .typeError m => m
  | .attributeError m => m

/-- JSON values (and the Python objects decoded from them).  Numbers are
modelled as rationals; JSON objects as association lists in insertion
order. -/
inductive JVal where
  | jnull
  | jbool (b : Bool)
  | jnum (q : ℚ)
  | jstr (s : String)
  | jarr (elems : List JVal)
  | jobj (fields : List (String × JVal))
deriving Repr

mutual
def JVal.beq : JVal → JVal → Bool
  | .jnull, .jnull => true
  | .jbool a, .jbool b => a == b
  | .jnum a, .jnum b => a == b
  | .jstr a, .jstr b => a == b
  | .jarr xs, .jarr ys => JVal.beqArr xs ys
  | .jobj xs, .jobj ys => JVal.beqObj xs ys
  | _, _ => false
def JVal.beqArr : List JVal → List JVal → Bool
  | [], [] => true
  | x :: xs, y :: ys => JVal.beq x y && JVal.beqArr xs ys
  | _, _ => false
def JVal.beqObj : List (String × JVal) → List (String × JVal) → Bool
  | [], [] => true
  | (k, v) :: xs, (k2, v2) :: ys => k == k2 && JVal.beq v v2 && JVal.beqObj xs ys
  | _, _ => false
end

instance : BEq JVal := ⟨JVal.beq⟩

/-- Python truthiness: `None`, `False`, `0`, `''`, `[]` and `{}` are falsy. -/
def pyTruthy : JVal → Bool
  | .jnull => false
  | .jbool b => b
  | .jnum q => q != 0
  | .jstr s => s ≠ ""
  | .jarr l => ¬ l.isEmpty
  | .jobj l => ¬ l.isEmpty

/-- Truthiness of the result of a `.get` (which may be Python `None`,
modelled as `none`). -/
def truthyO : Option JVal → Bool
  | some v => pyTruthy v
  | none => false

/-- `needle in haystack` for character lists (substring containment). -/
def listContains (needle : List Char) : List Char → Bool
  | [] => needle.isEmpty
  | c :: rest => needle.isPrefixOf (c :: rest) || listContains needle rest

/-- `needle in haystack` on strings. -/
def strContains (needle haystack : String) : Bool :=
  listContains needle.toList haystack.toList

/-- `s.strip()`: drop leading and trailing whitespace. -/
def pyStrip (s : String) : String :=
  String.mk (((s.toList.dropWhile Char.isWhitespace).reverse.dropWhile
    Char.isWhitespace).reverse)

/-- Lookup in a JSON object (Python `dict`), keys are strings. -/
def dictGet (d : List (String × JVal)) (k : String) : Option JVal :=
  match d with
  | [] => none
  | (k2, v) :: rest => if k2 = k then some v else dictGet rest k

/-- Lookup in a dict keyed by arbitrary JSON values (used for the
`{ad['id']: ad}` comprehensions). -/
def assocGet (d : List (JVal × JVal)) (k : JVal) : Option JVal :=
  match d with
  | [] => none
  | (k2, v) :: rest => if JVal.beq k2 k then some v else assocGet rest k

/-- `d[k] = v` on a Python dict: overwrite in place when the key exists,
append otherwise. -/
def pyInsert (d : List (JVal × JVal)) (k v : JVal) : List (JVal × JVal) :=
  match d with
  | [] => [(k, v)]
  | (k2, v2) :: rest =>
      if JVal.beq k2 k then (k2, v) :: rest else (k2, v2) :: pyInsert rest k v

/-- `owner.get(k)`: only dicts have `.get`; anything else raises
`AttributeError`.  A missing key or a JSON `null` value both read back as
Python `None` (`none` / `some .jnull`). -/
def pyGet (owner : JVal) (k : String) : Except PyErr (Option JVal) :=
  match owner with
  | .jobj d => .ok (dictGet d k)
  | _ => .error (.attributeError k)

/-- `owner.get(k, dflt)`. -/
def pyGetD (owner : JVal) (k : String) (dflt : JVal) : Except PyErr JVal :=
  (pyGet owner k).map (fun o => o.getD dflt)

/-- `owner[k]` with a string key: `KeyError` on a dict without the key,
`TypeError` on non-dicts. -/
def pyIndex (owner : JVal) (k : String) : Except PyErr JVal :=
  match owner with
  | .jobj d =>
      match dictGet d k with
      | some v => .ok v
      | none => .error (.keyError k)
  | _ => .error (.typeError ("indices must not be str: " ++ k))

/-- `for x in v`: lists iterate their elements, dicts their keys, strings
their characters; other values are not iterable. -/
def pyIter (v : JVal) : Except PyErr (List JVal) :=
  match v with
  | .jarr l => .ok l
  | .jobj d => .ok (d.map (fun p => JVal.jstr p.1))
  | .jstr s => .ok (s.toList.map (fun c => JVal.jstr (String.mk [c])))
  | _ => .error (.typeError "object is not iterable")

/-- `needle in container` for a string needle against a JSON value:
substring test on strings, membership on lists, key membership on dicts,
`TypeError` otherwise. -/
def pyIn (needle : String) (container : JVal) : Except PyErr Bool :=
  match container with
  | .jstr s => .ok (strContains needle s)
  | .jarr l => .ok (l.any (fun x => JVal.beq x (.jstr needle)))
  | .jobj d => .ok (d.any (fun p => p.1 = needle))
  | _ => .error (.typeError "argument of type is not iterable")

/-- Python `a or b` over already-computed subexpression results: keep `a`
when it is truthy, otherwise use `b` (an untaken branch's exception is
simply discarded, matching short-circuit evaluation). -/
def pyOr2 (a b : Except PyErr (Option JVal)) : Except PyErr (Option JVal) := do
  let x ← a
  if truthyO x then .ok x else b

mutual
def JVal.pyRepr : JVal → String
  | .jnull => "None"
  | .jbool true => "True"
  | .jbool false => "False"
  | .jnum q => if q.den = 1 then toString q.num else toString q
  | .jstr s => "\x27" ++ s ++ "\x27"
  | .jarr xs => "[" ++ JVal.pyReprArr xs ++ "]"
  | .jobj xs => "\x7b" ++ JVal.pyReprObj xs ++ "\x7d"
def JVal.pyReprArr : List JVal → String
  | [] => ""
  | [x] => JVal.pyRepr x
  | x :: xs => JVal.pyRepr x ++ ", " ++ JVal.pyReprArr xs
def JVal.pyReprObj : List (String × JVal) → String
  | [] => ""
  | [(k, v)] => "\x27" ++ k ++ "\x27: " ++ JVal.pyRepr v
  | (k, v) :: xs => "\x27" ++ k ++ "\x27: " ++ JVal.pyRepr v ++ ", " ++ JVal.pyReprObj xs
end

/-- `str(v)`: like `repr` except that a top-level string is unquoted. -/
def JVal.pyStr : JVal → String
  | .jstr s => s
  | v => JVal.pyRepr v

mutual
def jsonDumps : JVal → String
  | .jnull => "null"
  | .jbool true => "true"
  | .jbool false => "false"
  | .jnum q => if q.den = 1 then toString q.num else toString q
  | .jstr s => "\x22" ++ s ++ "\x22"
  | .jarr xs => "[" ++ jsonDumpsArr xs ++ "]"
  | .jobj xs => "\x7b" ++ jsonDumpsObj xs ++ "\x7d"
def jsonDumpsArr : List JVal → String
  | [] => ""
  | [x] => jsonDumps x
  | x :: xs => jsonDumps x ++ ", " ++ jsonDumpsArr xs
def jsonDumpsObj : List (String × JVal) → String
  | [] => ""
  | [(k, v)] => "\x22" ++ k ++ "\x22: " ++ jsonDumps v
  | (k, v) :: xs => "\x22" ++ k ++ "\x22: " ++ jsonDumps v ++ ", " ++ jsonDumpsObj xs
end

/-- Digit accumulation for number parsing. -/
def digitsVal (cs : List Char) : ℕ :=
  cs.foldl (fun acc c => acc * 10 + (c.toNat - 48)) 0

/-- Split a character list at the first occurrence of a separator
satisfying `p`. -/
def splitAtChar (p : Char → Bool) : List Char → List Char × Option (List Char)
  | [] => ([], none)
  | c :: rest =>
      if p c then ([], some rest)
      else
        let (l, r) := splitAtChar p rest
        (c :: l, r)

/-- Parse an optional leading sign, returning the sign and the remainder. -/
def takeSign : List Char → ℤ × List Char
  | '-' :: rest => (-1, rest)
  | '+' :: rest => (1, rest)
  | cs => (1, cs)

/-- Python `float(s)` on a string: optional sign, decimal digits with an
optional fractional part and an optional exponent; surrounding whitespace is
stripped; anything else raises `ValueError`. -/
def parseFloat (s : String) : Except PyErr ℚ :=
  let cs := (pyStrip s).toList
  let (sgn, cs) := takeSign cs
  let (mant, expPart) := splitAtChar (fun c => c = 'e' || c = 'E') cs
  let (ipart, fpartOpt) := splitAtChar (fun c => c = '.') mant
  let fpart := fpartOpt.getD []
  if ipart.all Char.isDigit ∧ fpart.all Char.isDigit ∧ (ipart ≠ [] ∨ fpart ≠ []) then
    let base : ℚ := (sgn : ℚ) * ((digitsVal ipart : ℚ) + (digitsVal fpart : ℚ) / ((10 : ℚ) ^ fpart.length))
    match expPart with
    | none => .ok base
    | some ecs =>
        let (esgn, eds) := takeSign ecs
        if eds ≠ [] ∧ eds.all Char.isDigit then
          .ok (base * (10 : ℚ) ^ (esgn * (digitsVal eds : ℤ)))
        else .error (.valueError ("could not convert string to float: " ++ s))
  else .error (.valueError ("could not convert string to float: " ++ s))

/-- Python `int(s)` on a string: optional sign and decimal digits only. -/
def parseInt (s : String) : Except PyErr ℤ :=
  let cs := (pyStrip s).toList
  let (sgn, ds) := takeSign cs
  if ds ≠ [] ∧ ds.all Char.isDigit then .ok (sgn * (digitsVal ds : ℤ))
  else .error (.valueError ("invalid literal for int: " ++ s))

/-- Truncation toward zero, Python `int()` applied to a float. -/
def pyTrunc (q : ℚ) : ℤ :=
  if 0 ≤ q then q.floor else -((-q).floor)

/-- Python `float(v)`. -/
def pyFloat (v : JVal) : Except PyErr ℚ :=
  match v with
  | .jnum q => .ok q
  | .jstr s => parseFloat s
  | .jbool b => .ok (if b then 1 else 0)
  | _ => .error (.typeError "float() argument")

/-- Python `int(v)` (truncating floats, parsing integer-literal strings). -/
def pyInt (v : JVal) : Except PyErr ℤ :=
  match v with
  | .jnum q => .ok (pyTrunc q)
  | .jstr s => parseInt s
  | .jbool b => .ok (if b then 1 else 0)
  | _ => .error (.typeError "int() argument")

/-- Round to the nearest integer, ties to even (Python's rounding rule). -/
def roundHalfEven (x : ℚ) : ℤ :=
  let f := x.floor
  let r := x - (f : ℚ)
  if r < 1 / 2 then f
  else if 1 / 2 < r then f + 1
  else if f % 2 = 0 then f else f + 1

/-- `round(x, 2)` on the idealized (rational) reading of a Python float. -/
def pyRound2 (x : ℚ) : ℚ := (roundHalfEven (x * 100) : ℚ) / 100

/-- A `{since, until}` style dict of string keys and values, in insertion
order. -/
abbrev StrDict := List (String × String)

/-- A `StrDict` as a JSON value (for `json.dumps(time_range)`). -/
def jvalOfStrDict (d : StrDict) : JVal :=
  .jobj (d.map (fun p => (p.1, JVal.jstr p.2)))

/-- `str(d)` for a Python dict of strings (used by the summary report's
`f"{date_preset or time_range}"`). -/
def strDictRepr (d : StrDict) : String :=
  JVal.pyRepr (jvalOfStrDict d)

/-- The `except ValueError` handler inside `_get_fb_access_token`: re-raise
the caught error when its text contains `--fb-token`, otherwise raise the
"not provided" message.  (Note that `list.index`'s own failure message also
contains `--fb-token`, so the second branch is unreachable in practice.) -/
def handleTokenValueError (caughtMsg : String) : Except PyErr (Option String) :=
  if strContains "--fb-token" caughtMsg then
    .error (.valueError caughtMsg)
  else
    .error (.valueError ("Facebook access token not provided. Set FB_ACCESS_TOKEN environment variable or run with: python server.py --fb-token YOUR_TOKEN"))

/-- `_get_fb_access_token`, as a function of the cached global
`FB_ACCESS_TOKEN`, the `FB_ACCESS_TOKEN` environment variable, and
`sys.argv`.  Returns the call's outcome together with the new value of the
global. -/
def getFbAccessToken (cache : Option String) (env : Option String)
    (argv : List String) : Except PyErr String × Option String :=
  match cache with
  | some tok => (.ok tok, some tok)
  | none =>
      let fromEnv := env
      let afterArgv : Except PyErr (Option String) :=
        if fromEnv.getD "" ≠ "" then .ok fromEnv
        else
          match argv.findIdx? (fun a => a = "--fb-token") with
          | some tokenIndex =>
              if tokenIndex + 1 < argv.length then .ok (argv.get? (tokenIndex + 1))
              else handleTokenValueError "--fb-token flag provided but no token value found"
          | none =>
              -- sys.argv.index raises ValueError("'--fb-token' is not in list")
              handleTokenValueError "\x27--fb-token\x27 is not in list"
      match afterArgv with
      | .error e => (.error e, fromEnv)
      | .ok t =>
          match t with
          | none => (.error (.valueError "Facebook access token cannot be empty"), none)
          | some s =>
              if s = "" ∨ pyStrip s = "" then
                (.error (.valueError "Facebook access token cannot be empty"), some s)
              else (.ok s, some s)

/-- What the network did with one `requests.get`: a 2xx response with a
decoded JSON body, a non-2xx response (carrying `str(e)` for the
`HTTPError` raised by `raise_for_status` and the result of attempting to
decode the body, `none` when decoding fails), a timeout, or another
request exception with its message. -/
inductive GetOutcome where
  | ok (json : JVal)
  | httpErrorResp (origMsg : String) (decodedBody : Option JVal)
  | timeout
  | netError (msg : String)

/-- `_make_graph_api_call`: returns the decoded JSON on success; on an HTTP
error, best-effort re-raises a `Facebook API Error (Code {code}): {message}`
built from the body's `error` object, swallowing body-decode failures
(`ValueError`/`KeyError`) so the original `HTTPError` propagates; timeouts
and other request failures are re-raised with fixed / wrapping messages. -/
def makeGraphApiCall (outcome : GetOutcome) : Except PyErr JVal :=
  match outcome with
  | .ok j => .ok j
  | .timeout => .error (.requestException "Request to Facebook API timed out after 30 seconds")
  | .netError m => .error (.requestException ("Network error calling Facebook API: " ++ m))
  | .httpErrorResp origMsg decodedBody =>
      match decodedBody with
      | none => .error (.httpError origMsg)
      | some errorData =>
          match pyIn "error" errorData with
          | .error e => .error e
          | .ok false => .error (.httpError origMsg)
          | .ok true =>
              match pyIndex errorData "error" with
              | .error e => .error e
              | .ok errVal =>
                  match errVal with
                  | .jobj errFields =>
                      let errorMsg := JVal.pyStr ((dictGet errFields "message").getD (.jstr origMsg))
                      let errorCode := JVal.pyStr ((dictGet errFields "code").getD (.jstr "unknown"))
                      .error (.httpError ("Facebook API Error (Code " ++ errorCode ++ "): " ++ errorMsg))
                  | _ => .error (.attributeError "get")

/-- `fetch_pagination_url`: the pagination passthrough's own copy of the
error handling.  The reformatted message omits the error code, and the
timeout / network messages name the pagination URL. -/
def fetchPaginationUrl (outcome : GetOutcome) : Except PyErr JVal :=
  match outcome with
  | .ok j => .ok j
  | .timeout => .error (.requestException "Request to pagination URL timed out after 30 seconds")
  | .netError m => .error (.requestException ("Network error fetching pagination URL: " ++ m))
  | .httpErrorResp origMsg decodedBody =>
      match decodedBody with
      | none => .error (.httpError origMsg)
      | some errorData =>
          match pyIn "error" errorData with
          | .error e => .error e
          | .ok false => .error (.httpError origMsg)
          | .ok true =>
              match pyIndex errorData "error" with
              | .error e => .error e
              | .ok errVal =>
                  match errVal with
                  | .jobj errFields =>
                      let errorMsg := JVal.pyStr ((dictGet errFields "message").getD (.jstr origMsg))
                      .error (.httpError ("Facebook API Error: " ++ errorMsg))
                  | _ => .error (.attributeError "get")

/-- The observable shape of one outgoing `requests.get`. -/
structure HttpRequest where
  url : String
  params : List (String × JVal)
  timeout : ℕ
deriving Repr

/-- The request issued by `_make_graph_api_call(url, params)`:
`requests.get(url, params=params, timeout=30)`. -/
def gatewayRequest (url : String) (params : List (String × JVal)) : HttpRequest :=
  { url := url, params := params, timeout := 30 }

/-- The request issued by `fetch_pagination_url(url)`:
`requests.get(url, timeout=30)` — no query parameters are appended. -/
def paginationRequest (url : String) : HttpRequest :=
  { url := url, params := [], timeout := 30 }

/-- An optional integer argument stored into a params dict. -/
def jOfOptInt : Option ℤ → JVal
  | some n => .jnum (n : ℚ)
  | none => .jnull

/-- `','.join(fields) if fields else dflt` — the shared optional-field-list
pattern (`if fields:` is Python truthiness, so an empty list also selects
the default). -/
def fieldsOrDefault (fields : Option (List String)) (dflt : String) : String :=
  match fields with
  | some fs => if fs.isEmpty then dflt else String.intercalate "," fs
  | none => dflt

/-- The trailing `if time_range: ... elif date_preset: ...` parameter pair
shared by the insights-style tools. -/
def timeRangeParams (datePreset : Option String) (timeRange : Option StrDict) :
    List (String × JVal) :=
  match timeRange with
  | some tr =>
      if tr.isEmpty then
        match datePreset with
        | some p => if p = "" then [] else [("date_preset", .jstr p)]
        | none => []
      else [("time_range", .jstr (jsonDumps (jvalOfStrDict tr)))]
  | none =>
      match datePreset with
      | some p => if p = "" then [] else [("date_preset", .jstr p)]
      | none => []

/-- `list_ad_accounts` query parameters. -/
def listAdAccountsParams (accessToken : String) : List (String × JVal) :=
  [("access_token", .jstr accessToken),
   ("fields", .jstr "name,account_id,account_status,currency")]

/-- `get_details_of_ad_account` query parameters. -/
def getDetailsOfAdAccountParams (accessToken : String)
    (fields : Option (List String)) : List (String × JVal) :=
  [("access_token", .jstr accessToken),
   ("fields", .jstr (fieldsOrDefault fields "name,account_status,amount_spent,balance,currency"))]

/-- `get_campaigns_by_adaccount` query parameters. -/
def getCampaignsByAdaccountParams (accessToken : String)
    (fields : Option (List String)) (limit : Option ℤ)
    (filtering : Option (List JVal)) : List (String × JVal) :=
  [("access_token", .jstr accessToken), ("limit", jOfOptInt limit),
   ("fields", .jstr (fieldsOrDefault fields "name,objective,status,effective_status,daily_budget,lifetime_budget"))] ++
  (match filtering with
   | some fl => if fl.isEmpty then [] else [("filtering", .jstr (jsonDumps (.jarr fl)))]
   | none => [])

/-- `get_campaign_by_id` query parameters (no default field list: an absent
field list means the API's own default set). -/
def getCampaignByIdParams (accessToken : String)
    (fields : Option (List String)) : List (String × JVal) :=
  [("access_token", .jstr accessToken)] ++
  (match fields with
   | some fs => if fs.isEmpty then [] else [("fields", .jstr (String.intercalate "," fs))]
   | none => [])

/-- `get_adsets_by_campaign` query parameters. -/
def getAdsetsByCampaignParams (accessToken : String)
    (fields : Option (List String)) (limit : Option ℤ) : List (String × JVal) :=
  [("access_token", .jstr accessToken), ("limit", jOfOptInt limit),
   ("fields", .jstr (fieldsOrDefault fields "name,effective_status,daily_budget,lifetime_budget,targeting"))]

/-- `get_adset_by_id` query parameters. -/
def getAdsetByIdParams (accessToken : String)
    (fields : Option (List String)) : List (String × JVal) :=
  [("access_token", .jstr accessToken)] ++
  (match fields with
   | some fs => if fs.isEmpty then [] else [("fields", .jstr (String.intercalate "," fs))]
   | none => [])

/-- `get_ads_by_adset` query parameters. -/
def getAdsByAdsetParams (accessToken : String)
    (fields : Option (List String)) (limit : Option ℤ) : List (String × JVal) :=
  [("access_token", .jstr accessToken), ("limit", jOfOptInt limit),
   ("fields", .jstr (fieldsOrDefault fields "name,effective_status,creative"))]

/-- `get_ad_by_id` query parameters. -/
def getAdByIdParams (accessToken : String)
    (fields : Option (List String)) : List (String × JVal) :=
  [("access_token", .jstr accessToken)] ++
  (match fields with
   | some fs => if fs.isEmpty then [] else [("fields", .jstr (String.intercalate "," fs))]
   | none => [])

/-- `get_campaign_insights` query parameters: time_range, when truthy,
replaces date_preset. -/
def getCampaignInsightsParams (accessToken : String)
    (fields : Option (List String)) (datePreset : Option String)
    (timeRange : Option StrDict) : List (String × JVal) :=
  [("access_token", .jstr accessToken),
   ("fields", .jstr (fieldsOrDefault fields "impressions,clicks,spend,cpc,cpm,ctr,reach"))] ++
  timeRangeParams datePreset timeRange

/-- `get_adset_insights` query parameters (date_preset only). -/
def getAdsetInsightsParams (accessToken : String)
    (fields : Option (List String)) (datePreset : Option String) : List (String × JVal) :=
  [("access_token", .jstr accessToken),
   ("fields", .jstr (fieldsOrDefault fields "impressions,clicks,spend,cpc,ctr"))] ++
  (match datePreset with
   | some p => if p = "" then [] else [("date_preset", .jstr p)]
   | none => [])

/-- `get_ad_insights` query parameters (date_preset only). -/
def getAdInsightsParams (accessToken : String)
    (fields : Option (List String)) (datePreset : Option String) : List (String × JVal) :=
  [("access_token", .jstr accessToken),
   ("fields", .jstr (fieldsOrDefault fields "impressions,clicks,spend,cpc,ctr"))] ++
  (match datePreset with
   | some p => if p = "" then [] else [("date_preset", .jstr p)]
   | none => [])

/-- The fixed `ad_fields` list of `get_comprehensive_ad_report`, joined. -/
def comprehensiveAdFieldsJoined : String :=
  String.intercalate ","
    ["id", "name", "status", "effective_status", "campaign_id",
     "campaign\x7bid,name\x7d", "adset_id", "adset\x7bid,name\x7d",
     "creative\x7bid,asset_feed_spec,image_url,video_id,thumbnail_url,object_story_spec\x7d"]

/-- The fixed `insight_fields` list of `get_comprehensive_ad_report`, joined. -/
def comprehensiveInsightFieldsJoined : String :=
  String.intercalate ","
    ["reach", "impressions", "frequency", "spend",
     "clicks", "unique_clicks", "ctr", "unique_ctr", "cpc", "cpm",
     "video_play_actions", "video_thruplay_watched_actions",
     "video_p25_watched_actions", "video_p50_watched_actions",
     "video_p75_watched_actions", "video_p100_watched_actions",
     "video_continuous_2_sec_watched_actions",
     "actions", "action_values", "cost_per_action_type"]

/-- `get_comprehensive_ad_report`'s ads-fetch query parameters. -/
def comprehensiveAdsParams (accessToken : String) (limit : Option ℤ) :
    List (String × JVal) :=
  [("access_token", .jstr accessToken),
   ("fields", .jstr comprehensiveAdFieldsJoined),
   ("limit", jOfOptInt limit)]

/-- `get_comprehensive_ad_report`'s insights-fetch query parameters,
including the server-side `spend > min_spend` filter and the
time_range/date_preset pair. -/
def comprehensiveInsightsParams (accessToken : String) (limit : Option ℤ)
    (minSpend : ℚ) (datePreset : Option String) (timeRange : Option StrDict) :
    List (String × JVal) :=
  [("access_token", .jstr accessToken),
   ("level", .jstr "ad"),
   ("fields", .jstr comprehensiveInsightFieldsJoined),
   ("limit", jOfOptInt limit),
   ("filtering", .jstr (jsonDumps (.jarr [.jobj
      [("field", .jstr "spend"), ("operator", .jstr "GREATER_THAN"),
       ("value", .jnum minSpend)]])))] ++
  timeRangeParams datePreset timeRange

/-- `get_summary_report`'s insights-fetch query parameters (server-side
`spend > 0` filter). -/
def summaryReportParams (accessToken : String) (limit : Option ℤ)
    (datePreset : Option String) (timeRange : Option StrDict) :
    List (String × JVal) :=
  [("access_token", .jstr accessToken),
   ("level", .jstr "ad"),
   ("fields", .jstr "ad_id,ad_name,campaign_id,campaign_name,adset_id,adset_name,spend,impressions,clicks,ctr,cpc,cpm,actions,cost_per_action_type"),
   ("limit", jOfOptInt limit),
   ("filtering", .jstr (jsonDumps (.jarr [.jobj
      [("field", .jstr "spend"), ("operator", .jstr "GREATER_THAN"),
       ("value", .jnum 0)]])))] ++
  timeRangeParams datePreset timeRange

/-- Inner loop of `get_action_value`: return the `value` of the first entry
whose `action_type` contains the lookup key as a substring. -/
def getActionValueLoop : List JVal → String → Except PyErr (Option JVal)
  | [], _ => .ok none
  | action :: rest, actionType => do
      let atV ← pyGetD action "action_type" (.jstr "")
      let b ← pyIn actionType atV
      if b then pyGet action "value" else getActionValueLoop rest actionType

/-- `get_action_value(actions_list, action_type)` from
`get_comprehensive_ad_report`: `None` on a falsy list, otherwise the first
substring match's value. -/
def getActionValue (actionsList : JVal) (actionType : String) :
    Except PyErr (Option JVal) :=
  if ¬ pyTruthy actionsList then .ok none
  else do
    let items ← pyIter actionsList
    getActionValueLoop items actionType

/-- Inner loop of `get_cost_per_action` (a verbatim duplicate of
`get_action_value` in the source). -/
def getCostPerActionLoop : List JVal → String → Except PyErr (Option JVal)
  | [], _ => .ok none
  | action :: rest, actionType => do
      let atV ← pyGetD action "action_type" (.jstr "")
      let b ← pyIn actionType atV
      if b then pyGet action "value" else getCostPerActionLoop rest actionType

/-- `get_cost_per_action(cost_per_actions, action_type)`. -/
def getCostPerAction (costPerActions : JVal) (actionType : String) :
    Except PyErr (Option JVal) :=
  if ¬ pyTruthy costPerActions then .ok none
  else do
    let items ← pyIter costPerActions
    getCostPerActionLoop items actionType

/-- The `purchases` expression: a Python `or` fallback chain over four
action-type substrings (first truthy lookup wins). -/
def purchasesOf (actions : JVal) : Except PyErr (Option JVal) :=
  pyOr2 (getActionValue actions "purchase")
    (pyOr2 (getActionValue actions "offsite_conversion.fb_pixel_purchase")
      (pyOr2 (getActionValue actions "offsite_conversion")
        (getActionValue actions "onsite_conversion")))

/-- The `cost_per_purchase` expression: the same fallback chain over
`cost_per_action_type`. -/
def costPerPurchaseOf (costPerActions : JVal) : Except PyErr (Option JVal) :=
  pyOr2 (getCostPerAction costPerActions "purchase")
    (pyOr2 (getCostPerAction costPerActions "offsite_conversion.fb_pixel_purchase")
      (pyOr2 (getCostPerAction costPerActions "offsite_conversion")
        (getCostPerAction costPerActions "onsite_conversion")))

/-- The asset-URL block of `get_comprehensive_ad_report`, given the already
fetched `creative = ad.get('creative', {})`: thumbnail, else image URL,
else a synthesized `Video ID: {id}` string from nested video data. -/
def assetUrlFromCreative (creative : JVal) : Except PyErr (Option JVal) :=
  if ¬ pyTruthy creative then .ok none
  else do
    let a1 ← pyOr2 (pyGet creative "thumbnail_url") (pyGet creative "image_url")
    if truthyO a1 then .ok a1
    else do
      let oss ← pyGet creative "object_story_spec"
      if ¬ truthyO oss then .ok a1
      else do
        let ossD ← pyGetD creative "object_story_spec" (.jobj [])
        let videoData ← pyGetD ossD "video_data" (.jobj [])
        if pyTruthy videoData then do
          let vid ← pyGetD videoData "video_id" (.jstr "N/A")
          .ok (some (.jstr ("Video ID: " ++ JVal.pyStr vid)))
        else .ok a1

/-- `ad.get('campaign', {}).get('id') if ad.get('campaign') else
ad.get('campaign_id')`. -/
def campaignIdOf (ad : JVal) : Except PyErr (Option JVal) := do
  let c ← pyGet ad "campaign"
  if truthyO c then do
    let cd ← pyGetD ad "campaign" (.jobj [])
    pyGet cd "id"
  else pyGet ad "campaign_id"

/-- `ad.get('campaign', {}).get('name') if ad.get('campaign') else None`. -/
def campaignNameOf (ad : JVal) : Except PyErr (Option JVal) := do
  let c ← pyGet ad "campaign"
  if truthyO c then do
    let cd ← pyGetD ad "campaign" (.jobj [])
    pyGet cd "name"
  else .ok none

/-- `ad.get('adset', {}).get('id') if ad.get('adset') else
ad.get('adset_id')`. -/
def adSetIdOf (ad : JVal) : Except PyErr (Option JVal) := do
  let c ← pyGet ad "adset"
  if truthyO c then do
    let cd ← pyGetD ad "adset" (.jobj [])
    pyGet cd "id"
  else pyGet ad "adset_id"

/-- `creative.get('id') if creative else None` (the `ad_creative_id`
field). -/
def adCreativeIdOf (creative : JVal) : Except PyErr (Option JVal) :=
  if pyTruthy creative then pyGet creative "id" else .ok none

/-- `ad.get('adset', {}).get('name') if ad.get('adset') else None`. -/
def adSetNameOf (ad : JVal) : Except PyErr (Option JVal) := do
  let c ← pyGet ad "adset"
  if truthyO c then do
    let cd ← pyGetD ad "adset" (.jobj [])
    pyGet cd "name"
  else .ok none

/-- One entry of the comprehensive report's `data` list, with the fields in
the source's literal order. -/
structure ReportRow where
  ad_creative_id : Option JVal
  ad_id : JVal
  ad_name : Option JVal
  campaign_id : Option JVal
  campaign_name : Option JVal
  ad_set_id : Option JVal
  ad_set_name : Option JVal
  ad_status : Option JVal
  delivery : Option JVal
  asset_url : Option JVal
  reach : Option JVal
  impressions : Option JVal
  frequency : Option JVal
  purchases : Option JVal
  cost_per_purchase : Option JVal
  clicks_all : Option JVal
  unique_clicks_all : Option JVal
  ctr_all : Option JVal
  unique_ctr_all : Option JVal
  cpc_all : Option JVal
  cpm : Option JVal
  video_3_sec_plays : Option JVal
  video_plays_25_percent : Option JVal
  video_plays_50_percent : Option JVal
  video_plays_75_percent : Option JVal
  video_plays_100_percent : Option JVal
  video_plays : Option JVal
  thru_plays : Option JVal
  adds_to_cart : Option JVal
  content_views : Option JVal
  checkouts_initiated : Option JVal
  landing_page_views : Option JVal
  link_clicks : Option JVal
  outbound_clicks : Option JVal
  post_reactions : Option JVal
  post_comments : Option JVal
  post_saves : Option JVal
  post_shares : Option JVal
  post_engagement : Option JVal
  page_likes : Option JVal
  amount_spent : Option JVal
deriving Repr

/-- The per-ad body of `get_comprehensive_ad_report`'s loop: builds one
`result` record from the ad record and its matched insight record. -/
def buildRow (adId : JVal) (ad : JVal) (insightsData : JVal) :
    Except PyErr ReportRow := do
  let creative ← pyGetD ad "creative" (.jobj [])
  let assetUrl ← assetUrlFromCreative creative
  let actions ← pyGetD insightsData "actions" (.jarr [])
  let videoActions ← pyGetD insightsData "video_play_actions" (.jarr [])
  let costPerActions ← pyGetD insightsData "cost_per_action_type" (.jarr [])
  let purchases ← purchasesOf actions
  let costPerPurchase ← costPerPurchaseOf costPerActions
  let adCreativeId ← adCreativeIdOf creative
  let adName ← pyGet ad "name"
  let campaignId ← campaignIdOf ad
  let campaignName ← campaignNameOf ad
  let adSetId ← adSetIdOf ad
  let adSetName ← adSetNameOf ad
  let adStatus ← pyGet ad "status"
  let delivery ← pyGet ad "effective_status"
  let reach ← pyGet insightsData "reach"
  let impressions ← pyGet insightsData "impressions"
  let frequency ← pyGet insightsData "frequency"
  let clicksAll ← pyGet insightsData "clicks"
  let uniqueClicksAll ← pyGet insightsData "unique_clicks"
  let ctrAll ← pyGet insightsData "ctr"
  let uniqueCtrAll ← pyGet insightsData "unique_ctr"
  let cpcAll ← pyGet insightsData "cpc"
  let cpmV ← pyGet insightsData "cpm"
  let v2s ← pyGetD insightsData "video_continuous_2_sec_watched_actions" (.jarr [])
  let video3SecPlays ← getActionValue v2s "video_view"
  let p25 ← pyGetD insightsData "video_p25_watched_actions" (.jarr [])
  let videoPlays25 ← getActionValue p25 "video_view"
  let p50 ← pyGetD insightsData "video_p50_watched_actions" (.jarr [])
  let videoPlays50 ← getActionValue p50 "video_view"
  let p75 ← pyGetD insightsData "video_p75_watched_actions" (.jarr [])
  let videoPlays75 ← getActionValue p75 "video_view"
  let p100 ← pyGetD insightsData "video_p100_watched_actions" (.jarr [])
  let videoPlays100 ← getActionValue p100 "video_view"
  let videoPlays ← getActionValue videoActions "video_view"
  let thru ← pyGetD insightsData "video_thruplay_watched_actions" (.jarr [])
  let thruPlays ← getActionValue thru "video_view"
  let addsToCart ← pyOr2 (getActionValue actions "add_to_cart")
    (getActionValue actions "offsite_conversion.fb_pixel_add_to_cart")
  let contentViews ← pyOr2 (getActionValue actions "view_content")
    (getActionValue actions "offsite_conversion.fb_pixel_view_content")
  let checkoutsInitiated ← pyOr2 (getActionValue actions "initiate_checkout")
    (getActionValue actions "offsite_conversion.fb_pixel_initiate_checkout")
  let landingPageViews ← getActionValue actions "landing_page_view"
  let linkClicks ← getActionValue actions "link_click"
  let outboundClicks ← getActionValue actions "outbound_click"
  let postReactions ← getActionValue actions "post_reaction"
  let postComments ← getActionValue actions "comment"
  let postSaves ← getActionValue actions "post_save"
  let postShares ← getActionValue actions "post_share"
  let postEngagement ← getActionValue actions "post_engagement"
  let pageLikes ← getActionValue actions "like"
  let amountSpent ← pyGet insightsData "spend"
  pure { ad_creative_id := adCreativeId, ad_id := adId, ad_name := adName,
         campaign_id := campaignId, campaign_name := campaignName,
         ad_set_id := adSetId, ad_set_name := adSetName,
         ad_status := adStatus, delivery := delivery, asset_url := assetUrl,
         reach := reach, impressions := impressions, frequency := frequency,
         purchases := purchases, cost_per_purchase := costPerPurchase,
         clicks_all := clicksAll, unique_clicks_all := uniqueClicksAll,
         ctr_all := ctrAll, unique_ctr_all := uniqueCtrAll,
         cpc_all := cpcAll, cpm := cpmV,
         video_3_sec_plays := video3SecPlays,
         video_plays_25_percent := videoPlays25,
         video_plays_50_percent := videoPlays50,
         video_plays_75_percent := videoPlays75,
         video_plays_100_percent := videoPlays100,
         video_plays := videoPlays, thru_plays := thruPlays,
         adds_to_cart := addsToCart, content_views := contentViews,
         checkouts_initiated := checkoutsInitiated,
         landing_page_views := landingPageViews, link_clicks := linkClicks,
         outbound_clicks := outboundClicks, post_reactions := postReactions,
         post_comments := postComments, post_saves := postSaves,
         post_shares := postShares, post_engagement := postEngagement,
         page_likes := pageLikes, amount_spent := amountSpent }

/-- A dict comprehension `{x[key]: x for x in items}` (later duplicates
overwrite in place, Python dict semantics). -/
def buildById (key : String) (acc : List (JVal × JVal)) :
    List JVal → Except PyErr (List (JVal × JVal))
  | [] => .ok acc
  | x :: rest => do
      let k ← pyIndex x key
      buildById key (pyInsert acc k x) rest

/-- The main loop of `get_comprehensive_ad_report`: for each ad, skip it
when its insight record (`insights_by_ad_id.get(ad_id, {})`) is falsy,
otherwise append the built row. -/
def buildRows (insightsByAdId : List (JVal × JVal)) :
    List (JVal × JVal) → Except PyErr (List ReportRow)
  | [] => .ok []
  | (adId, ad) :: rest =>
      let insightsData := (assocGet insightsByAdId adId).getD (.jobj [])
      if ¬ pyTruthy insightsData then buildRows insightsByAdId rest
      else do
        let row ← buildRow adId ad insightsData
        let rows ← buildRows insightsByAdId rest
        pure (row :: rows)

/-- The comprehensive report's `summary` block. -/
structure ComprehensiveSummary where
  total_ads : ℕ
  date_preset : Option String
  time_range : Option StrDict
  account_id : String
  campaign_id : Option String
  min_spend_filter : ℚ
deriving Repr

/-- The comprehensive report's return value. -/
structure ComprehensiveReport where
  data : List ReportRow
  summary : ComprehensiveSummary
deriving Repr

/-- `get_comprehensive_ad_report`, as a function of the outcomes of its two
HTTP fetches (ads first, then account-level insights at ad granularity)
and the echoed arguments. -/
def getComprehensiveAdReport (adsOutcome insightsOutcome : GetOutcome)
    (actId : String) (datePreset : Option String) (timeRange : Option StrDict)
    (campaignId : Option String) (minSpend : ℚ) :
    Except PyErr ComprehensiveReport := do
  let adsResponse ← makeGraphApiCall adsOutcome
  let adsDataV ← pyGetD adsResponse "data" (.jarr [])
  let adsData ← pyIter adsDataV
  let allAds ← buildById "id" [] adsData
  let insightsResponse ← makeGraphApiCall insightsOutcome
  let insDataV ← pyGetD insightsResponse "data" (.jarr [])
  let insData ← pyIter insDataV
  let insightsByAdId ← buildById "ad_id" [] insData
  let results ← buildRows insightsByAdId allAds
  pure { data := results,
         summary := { total_ads := results.length, date_preset := datePreset,
                      time_range := timeRange, account_id := actId,
                      campaign_id := campaignId, min_spend_filter := minSpend } }

/-- A resource tool's result is exactly the Gateway's (`return
_make_graph_api_call(url, params)`); `get_campaign_insights` shown as the
representative — any raised error propagates to the caller. -/
def getCampaignInsightsResult (outcome : GetOutcome) : Except PyErr JVal :=
  makeGraphApiCall outcome

/-- Inner loop of `get_summary_report`'s `get_conversions`: the first
substring match's value as `int(float(value))`. -/
def getConversionsLoop : List JVal → String → Except PyErr ℤ
  | [], _ => .ok 0
  | action :: rest, actionType => do
      let atV ← pyGetD action "action_type" (.jstr "")
      let b ← pyIn actionType atV
      if b then do
        let v ← pyGetD action "value" (.jnum 0)
        let f ← pyFloat v
        .ok (pyTrunc f)
      else getConversionsLoop rest actionType

/-- `get_conversions(actions, action_type='purchase')`: `0` on a falsy
list or no match. -/
def getConversions (actions : JVal) (actionType : String) : Except PyErr ℤ :=
  if ¬ pyTruthy actions then .ok 0
  else do
    let items ← pyIter actions
    getConversionsLoop items actionType

/-- Inner loop of `get_summary_report`'s `get_cpa`: the first substring
match's value as a float. -/
def getCpaLoop : List JVal → String → Except PyErr (Option ℚ)
  | [], _ => .ok none
  | action :: rest, actionType => do
      let atV ← pyGetD action "action_type" (.jstr "")
      let b ← pyIn actionType atV
      if b then do
        let v ← pyGetD action "value" (.jnum 0)
        let f ← pyFloat v
        .ok (some f)
      else getCpaLoop rest actionType

/-- `get_cpa(cost_per_actions, action_type='purchase')`: `None` on a falsy
list or no match. -/
def getCpa (costPerActions : JVal) (actionType : String) :
    Except PyErr (Option ℚ) :=
  if ¬ pyTruthy costPerActions then .ok none
  else do
    let items ← pyIter costPerActions
    getCpaLoop items actionType

/-- One entry of the summary report's `data` list. -/
structure SummaryRow where
  ad_id : Option JVal
  ad_name : Option JVal
  campaign_id : Option JVal
  campaign_name : Option JVal
  adset_id : Option JVal
  adset_name : Option JVal
  spend : ℚ
  impressions : ℤ
  clicks : ℤ
  ctr : ℚ
  cpc : ℚ
  cpm : ℚ
  conversions : ℤ
  cpa : Option ℚ
deriving Repr

/-- The per-ad body of `get_summary_report`'s loop: the built row together
with the raw `spend` and `conversions` added to the running totals.  The
`cpa` field is `round(cpa, 2) if cpa else None` — a zero CPA is falsy and
becomes `None`. -/
def buildSummaryRow (ad : JVal) : Except PyErr (SummaryRow × ℚ × ℤ) := do
  let spendV ← pyGetD ad "spend" (.jnum 0)
  let spend ← pyFloat spendV
  let actions ← pyGetD ad "actions" (.jarr [])
  let conversions ← getConversions actions "purchase"
  let costPerActions ← pyGetD ad "cost_per_action_type" (.jarr [])
  let cpa ← getCpa costPerActions "purchase"
  let adIdV ← pyGet ad "ad_id"
  let adNameV ← pyGet ad "ad_name"
  let campaignIdV ← pyGet ad "campaign_id"
  let campaignNameV ← pyGet ad "campaign_name"
  let adsetIdV ← pyGet ad "adset_id"
  let adsetNameV ← pyGet ad "adset_name"
  let impressionsV ← pyGetD ad "impressions" (.jnum 0)
  let impressions ← pyInt impressionsV
  let clicksV ← pyGetD ad "clicks" (.jnum 0)
  let clicks ← pyInt clicksV
  let ctrV ← pyGetD ad "ctr" (.jnum 0)
  let ctr ← pyFloat ctrV
  let cpcV ← pyGetD ad "cpc" (.jnum 0)
  let cpc ← pyFloat cpcV
  let cpmV ← pyGetD ad "cpm" (.jnum 0)
  let cpm ← pyFloat cpmV
  pure ({ ad_id := adIdV, ad_name := adNameV, campaign_id := campaignIdV,
          campaign_name := campaignNameV, adset_id := adsetIdV,
          adset_name := adsetNameV, spend := pyRound2 spend,
          impressions := impressions, clicks := clicks, ctr := ctr,
          cpc := cpc, cpm := cpm, conversions := conversions,
          cpa := match cpa with
                 | some q => if q = 0 then none else some (pyRound2 q)
                 | none => none },
        spend, conversions)

/-- The summary report's loop over `ads_data`, accumulating the rows and
the running `total_spend` / `total_conversions`. -/
def summaryLoop : List JVal → Except PyErr (List SummaryRow × ℚ × ℤ)
  | [] => .ok ([], 0, 0)
  | ad :: rest => do
      let (row, spend, conversions) ← buildSummaryRow ad
      let (rows, totalSpend, totalConversions) ← summaryLoop rest
      pure (row :: rows, spend + totalSpend, conversions + totalConversions)

/-- The summary report's `summary` block. -/
structure SummaryTotals where
  total_ads : ℕ
  total_spend : ℚ
  total_conversions : ℤ
  average_cpa : ℚ
  date_preset : Option String
  time_range : Option StrDict
  account_id : String
deriving Repr

/-- `get_summary_report`'s return value: either the structured error
payload (`{'error': ..., 'date_range': ...}`) produced when the fetch
fails, or the normal report. -/
inductive SummaryOutput where
  | errorPayload (error : String) (date_range : String)
  | report (data : List SummaryRow) (summary : SummaryTotals)
deriving Repr

/-- `f"{date_preset or time_range}"` in the error payload. -/
def dateRangeRepr (datePreset : Option String) (timeRange : Option StrDict) :
    String :=
  match datePreset with
  | some p =>
      if p ≠ "" then p
      else match timeRange with
           | some tr => strDictRepr tr
           | none => "None"
  | none =>
      match timeRange with
      | some tr => strDictRepr tr
      | none => "None"

/-- `get_summary_report`, as a function of its single insights fetch's
outcome.  The fetch (and the `data` read on its response) sits in a
`try/except Exception` whose handler returns the error payload instead of
raising; the row-building loop after the `try` can still raise. -/
def getSummaryReport (outcome : GetOutcome) (actId : String)
    (datePreset : Option String) (timeRange : Option StrDict) :
    Except PyErr SummaryOutput :=
  match (do
      let insightsResponse ← makeGraphApiCall outcome
      pyGetD insightsResponse "data" (.jarr [])) with
  | .error e =>
      .ok (.errorPayload ("Failed to fetch insights: " ++ pyStrErr e)
            (dateRangeRepr datePreset timeRange))
  | .ok adsDataV => do
      let adsData ← pyIter adsDataV
      let (results, totalSpend, totalConversions) ← summaryLoop adsData
      pure (.report results
        { total_ads := results.length,
          total_spend := pyRound2 totalSpend,
          total_conversions := totalConversions,
          average_cpa :=
            if 0 < totalConversions then
              pyRound2 (totalSpend / (totalConversions : ℚ))
            else 0,
          date_preset := datePreset, time_range := timeRange,
          account_id := actId })

/-- Well-formedness of one action-list entry as produced by the insights
API: a dict whose `action_type`, when present, is a string (so the
substring test cannot raise). -/
def wfAction : JVal → Bool
  | .jobj d =>
      match dictGet d "action_type" with
      | none => true
      | some (.jstr _) => true
      | some _ => false
  | _ => false

/-- The `action_type` string of a well-formed entry (absent reads as `''`,
matching `action.get('action_type', '')`). -/
def actionTypeStr : JVal → String
  | .jobj d =>
      match dictGet d "action_type" with
      | some (.jstr s) => s
      | _ => ""
  | _ => ""

/-- The `value` of an entry (`action.get('value')`). -/
def actionValue : JVal → Option JVal
  | .jobj d => dictGet d "value"
  | _ => none

/-- The claim's reading of the flattener, stated from the spec's words:
the `value` of the first entry whose `action_type` contains the key as a
substring, `None` when no entry matches. -/
def firstSubstrMatchValue (items : List JVal) (key : String) : Option JVal :=
  match items.find? (fun a => strContains key (actionTypeStr a)) with
  | some a => actionValue a
  | none => none

theorem ok_bind {ε α β : Type} (a : α) (f : α → Except ε β) :
    (Except.ok a >>= f) = f a := rfl

theorem error_bind {ε α β : Type} (e : ε) (f : α → Except ε β) :
    ((Except.error e : Except ε α) >>= f) = .error e := rfl

theorem bindOk {ε α β : Type} {e : Except ε α} {f : α → Except ε β} {b : β}
    (h : e >>= f = Except.ok b) : ∃ a, e = Except.ok a ∧ f a = Except.ok b := by
  cases e with
  | ok a => exact ⟨a, rfl, h⟩
  | error c => rw [error_bind] at h; exact (Except.noConfusion h)

theorem pureOk {ε α : Type} {a b : α}
    (h : (pure a : Except ε α) = Except.ok b) : a = b :=
  Except.ok.inj h

theorem map_ok {ε α β : Type} (f : α → β) (a : α) :
    (Except.ok a : Except ε α).map f = .ok (f a) := rfl

theorem map_error {ε α β : Type} (f : α → β) (e : ε) :
    (Except.error e : Except ε α).map f = .error e := rfl

theorem dictGet_some_any {d : List (String × JVal)} {k : String} {v : JVal}
    (h : dictGet d k = some v) : (d.any (fun p => p.1 = k)) = true := by
  induction d with
  | nil => simp [dictGet] at h
  | cons p rest ih =>
      obtain ⟨k2, v2⟩ := p
      rw [dictGet] at h
      by_cases hk : k2 = k
      · simp [hk]
      · rw [if_neg hk] at h
        simp [hk, ih h]

theorem dictGet_none_any {d : List (String × JVal)} {k : String}
    (h : dictGet d k = none) : (d.any (fun p => p.1 = k)) = false := by
  induction d with
  | nil => simp
  | cons p rest ih =>
      obtain ⟨k2, v2⟩ := p
      rw [dictGet] at h
      by_cases hk : k2 = k
      · rw [if_pos hk] at h; exact (Option.noConfusion h)
      · rw [if_neg hk] at h
        simp [hk, ih h]

/-- Claim C2: for every non-2xx response whose body decodes to JSON with an
`error` object carrying a code and a message, `_make_graph_api_call` raises
an error whose message is exactly `Facebook API Error (Code {code}):
{message}`; for a body that fails to decode, or decodes without an `error`
key, the original HTTP error is re-raised unmodified. -/
theorem gateway_error_reformatting :
    (∀ origMsg errorData errFields code msg,
        dictGet errorData "error" = some (.jobj errFields) →
        dictGet errFields "code" = some code →
        dictGet errFields "message" = some msg →
        makeGraphApiCall (.httpErrorResp origMsg (some (.jobj errorData))) =
          .error (.httpError ("Facebook API Error (Code " ++ JVal.pyStr code ++
            "): " ++ JVal.pyStr msg)))
    ∧ (∀ origMsg,
        makeGraphApiCall (.httpErrorResp origMsg none) = .error (.httpError origMsg))
    ∧ (∀ origMsg errorData, dictGet errorData "error" = none →
        makeGraphApiCall (.httpErrorResp origMsg (some (.jobj errorData))) =
          .error (.httpError origMsg)) := by
  refine ⟨?_, ?_, ?_⟩
  · intro origMsg errorData errFields code msg h1 h2 h3
    simp [makeGraphApiCall, pyIn, pyIndex, dictGet_some_any h1, h1, h2, h3]
  · intro origMsg; rfl
  · intro origMsg errorData h
    simp [makeGraphApiCall, pyIn, pyIndex, dictGet_none_any h]

/-- Witness for C2 at the spec's example body. -/
theorem gateway_error_reformatting_witness :
    makeGraphApiCall (.httpErrorResp "400 Client Error"
      (some (.jobj [("error",
        .jobj [("code", .jnum 190), ("message", .jstr "Invalid token")])]))) =
      .error (.httpError "Facebook API Error (Code 190): Invalid token") := by
  have h := gateway_error_reformatting.1 "400 Client Error"
    [("error", .jobj [("code", .jnum 190), ("message", .jstr "Invalid token")])]
    [("code", .jnum 190), ("message", .jstr "Invalid token")]
    (.jnum 190) (.jstr "Invalid token") rfl rfl rfl
  exact h.trans (by rfl)

/-- Claim C6 counterexample: at one concrete non-2xx outcome with a
decodable error body, the pagination passthrough and the Gateway raise
different messages (the passthrough omits the code), and their fixed
timeout messages also differ — so they do not classify errors "the same
way". -/
theorem pagination_reformatting_differs :
    fetchPaginationUrl (.httpErrorResp "500 Server Error"
      (some (.jobj [("error",
        .jobj [("code", .jnum 190), ("message", .jstr "Invalid token")])]))) =
      .error (.httpError "Facebook API Error: Invalid token")
    ∧ makeGraphApiCall (.httpErrorResp "500 Server Error"
      (some (.jobj [("error",
        .jobj [("code", .jnum 190), ("message", .jstr "Invalid token")])]))) =
      .error (.httpError "Facebook API Error (Code 190): Invalid token")
    ∧ "Facebook API Error: Invalid token" ≠
        "Facebook API Error (Code 190): Invalid token"
    ∧ fetchPaginationUrl .timeout =
        .error (.requestException "Request to pagination URL timed out after 30 seconds")
    ∧ makeGraphApiCall .timeout =
        .error (.requestException "Request to Facebook API timed out after 30 seconds") := by
  exact ⟨rfl, rfl, by decide, rfl, rfl⟩

/-- Claim C6 (amended): `fetch_pagination_url` uses the same 30-unit
timeout and the same classification structure as the Gateway (reformatted
`HTTPError` when the decoded body has an `error` object, the original
error on decode failure, a fixed timeout message, wrapped network errors),
but with its own message texts — the reformatted message omits the code
(`Facebook API Error: {message}`) and the timeout/network messages name
the pagination URL; it never appends an access-token parameter, whereas
every Gateway call's parameters include the resolved credential. -/
theorem pagination_vs_gateway :
    (∀ url params, (gatewayRequest url params).timeout = 30
        ∧ (paginationRequest url).timeout = 30
        ∧ (paginationRequest url).params = [])
    ∧ (∀ origMsg errorData errFields msg,
        dictGet errorData "error" = some (.jobj errFields) →
        dictGet errFields "message" = some msg →
        fetchPaginationUrl (.httpErrorResp origMsg (some (.jobj errorData))) =
          .error (.httpError ("Facebook API Error: " ++ JVal.pyStr msg)))
    ∧ (∀ origMsg,
        fetchPaginationUrl (.httpErrorResp origMsg none) = .error (.httpError origMsg))
    ∧ fetchPaginationUrl .timeout =
        .error (.requestException "Request to pagination URL timed out after 30 seconds")
    ∧ (∀ m, fetchPaginationUrl (.netError m) =
        .error (.requestException ("Network error fetching pagination URL: " ++ m)))
    ∧ (∀ tok, ("access_token", JVal.jstr tok) ∈ listAdAccountsParams tok)
    ∧ (∀ tok fields,
        ("access_token", JVal.jstr tok) ∈ getDetailsOfAdAccountParams tok fields)
    ∧ (∀ tok fields limit filtering, ("access_token", JVal.jstr tok) ∈
        getCampaignsByAdaccountParams tok fields limit filtering)
    ∧ (∀ tok fields,
        ("access_token", JVal.jstr tok) ∈ getCampaignByIdParams tok fields)
    ∧ (∀ tok fields limit, ("access_token", JVal.jstr tok) ∈
        getAdsetsByCampaignParams tok fields limit)
    ∧ (∀ tok fields,
        ("access_token", JVal.jstr tok) ∈ getAdsetByIdParams tok fields)
    ∧ (∀ tok fields limit, ("access_token", JVal.jstr tok) ∈
        getAdsByAdsetParams tok fields limit)
    ∧ (∀ tok fields, ("access_token", JVal.jstr tok) ∈ getAdByIdParams tok fields)
    ∧ (∀ tok fields dp tr, ("access_token", JVal.jstr tok) ∈
        getCampaignInsightsParams tok fields dp tr)
    ∧ (∀ tok fields dp, ("access_token", JVal.jstr tok) ∈
        getAdsetInsightsParams tok fields dp)
    ∧ (∀ tok fields dp, ("access_token", JVal.jstr tok) ∈
        getAdInsightsParams tok fields dp)
    ∧ (∀ tok limit, ("access_token", JVal.jstr tok) ∈
        comprehensiveAdsParams tok limit)
    ∧ (∀ tok limit ms dp tr, ("access_token", JVal.jstr tok) ∈
        comprehensiveInsightsParams tok limit ms dp tr)
    ∧ (∀ tok limit dp tr, ("access_token", JVal.jstr tok) ∈
        summaryReportParams tok limit dp tr) := by
  refine ⟨fun url params => ⟨rfl, rfl, rfl⟩, ?_, fun origMsg => rfl, rfl, fun m => rfl,
    ?_, ?_, ?_, ?_, ?_, ?_, ?_, ?_, ?_, ?_, ?_, ?_, ?_, ?_⟩
  · intro origMsg errorData errFields msg h1 h2
    simp [fetchPaginationUrl, pyIn, pyIndex, dictGet_some_any h1, h1, h2]
  all_goals intros
  · simp [listAdAccountsParams]
  · simp [getDetailsOfAdAccountParams]
  · simp [getCampaignsByAdaccountParams]
  · simp [getCampaignByIdParams]
  · simp [getAdsetsByCampaignParams]
  · simp [getAdsetByIdParams]
  · simp [getAdsByAdsetParams]
  · simp [getAdByIdParams]
  · simp [getCampaignInsightsParams]
  · simp [getAdsetInsightsParams]
  · simp [getAdInsightsParams]
  · simp [comprehensiveAdsParams]
  · simp [comprehensiveInsightsParams]
  · simp [summaryReportParams]

/-- Witness for the amended C6: the hypothesis-bearing conjunct applied at
a concrete error body. -/
theorem pagination_vs_gateway_witness :
    fetchPaginationUrl (.httpErrorResp "500 Server Error"
      (some (.jobj [("error", .jobj [("message", .jstr "Bad page")])]))) =
      .error (.httpError "Facebook API Error: Bad page") := by
  have h := pagination_vs_gateway.2.1 "500 Server Error"
    [("error", .jobj [("message", .jstr "Bad page")])]
    [("message", .jstr "Bad page")] (.jstr "Bad page") rfl rfl
  exact h.trans (by rfl)

/-- Claim C3: the flag-without-value case does raise the claimed message,
but in the no-source case (no environment variable, no flag in argv) the
resolver re-raises `list.index`'s own `ValueError` — whose text contains
`--fb-token` and therefore passes the handler's substring check — so the
claimed "Facebook access token not provided. ..." message is never raised
(that raise is dead code). -/
theorem credential_error_messages :
    (getFbAccessToken none none ["server.py", "--fb-token"]).1 =
      .error (.valueError "--fb-token flag provided but no token value found")
    ∧ (getFbAccessToken none none ["server.py"]).1 =
      .error (.valueError "\x27--fb-token\x27 is not in list")
    ∧ "\x27--fb-token\x27 is not in list" ≠
        "Facebook access token not provided. Set FB_ACCESS_TOKEN environment variable or run with: python server.py --fb-token YOUR_TOKEN" := by
  exact ⟨rfl, rfl, by decide⟩

/-- Claim C4: when the insights fetch raises, `get_summary_report` returns
the structured `{'error': ..., 'date_range': ...}` payload instead of
propagating; the other tools return the Gateway's result directly, so any
raised error propagates to the caller (shown for the representative
resource tool and for both `get_comprehensive_ad_report` fetches). -/
theorem summary_report_error_contract :
    (∀ outcome actId dp tr e, makeGraphApiCall outcome = .error e →
        getSummaryReport outcome actId dp tr =
          .ok (.errorPayload ("Failed to fetch insights: " ++ pyStrErr e)
                (dateRangeRepr dp tr)))
    ∧ (∀ outcome, getCampaignInsightsResult outcome = makeGraphApiCall outcome)
    ∧ (∀ adsOutcome insightsOutcome actId dp tr cid ms e,
        makeGraphApiCall adsOutcome = .error e →
        getComprehensiveAdReport adsOutcome insightsOutcome actId dp tr cid ms =
          .error e)
    ∧ (∀ adsOutcome insightsOutcome actId dp tr cid ms e adsResp,
        makeGraphApiCall adsOutcome = .ok adsResp →
        makeGraphApiCall insightsOutcome = .error e →
        pyGetD adsResp "data" (.jarr []) = .ok (.jarr []) →
        getComprehensiveAdReport adsOutcome insightsOutcome actId dp tr cid ms =
          .error e) := by
  refine ⟨?_, fun outcome => rfl, ?_, ?_⟩
  · intro outcome actId dp tr e h
    rw [getSummaryReport, h, error_bind]
  · intro adsOutcome insightsOutcome actId dp tr cid ms e h
    rw [getComprehensiveAdReport, h, error_bind]
  · intro adsOutcome insightsOutcome actId dp tr cid ms e adsResp h1 h2 h3
    rw [getComprehensiveAdReport, h1, ok_bind, h3, ok_bind]
    show (pyIter (.jarr []) >>= _) = _
    rw [show pyIter (.jarr []) = .ok [] from rfl, ok_bind]
    show (buildById "id" [] [] >>= _) = _
    rw [show buildById "id" [] [] = .ok [] from rfl, ok_bind, h2, error_bind]

/-- Witness for C4 at a timeout of the summary fetch (and a network error
of the comprehensive ads fetch). -/
theorem summary_report_error_contract_witness :
    getSummaryReport .timeout "act_1" (some "last_30d") none =
      .ok (.errorPayload
        "Failed to fetch insights: Request to Facebook API timed out after 30 seconds"
        "last_30d")
    ∧ getComprehensiveAdReport (.netError "refused") .timeout "act_1"
        (some "last_30d") none none 0 =
      .error (.requestException "Network error calling Facebook API: refused") := by
  constructor
  · have h := summary_report_error_contract.1 .timeout "act_1" (some "last_30d") none
      (.requestException "Request to Facebook API timed out after 30 seconds") rfl
    exact h.trans (by rfl)
  · exact summary_report_error_contract.2.2.1 (.netError "refused") .timeout "act_1"
      (some "last_30d") none none 0
      (.requestException "Network error calling Facebook API: refused") rfl

/-- Claim C9: a first successful resolution stores the returned token in
the cache, and every subsequent call returns that identical cached string
for any environment and argument list (the sources are no longer read). -/
theorem credential_resolved_once :
    ∀ env argv tok c, getFbAccessToken none env argv = (.ok tok, c) →
      c = some tok
      ∧ ∀ env2 argv2, getFbAccessToken c env2 argv2 = (.ok tok, c) := by
  intro env argv tok c h
  have hc : c = some tok := by
    rw [getFbAccessToken] at h
    split at h
    · exact absurd (congrArg Prod.fst h) (by simp)
    · split at h
      · exact absurd (congrArg Prod.fst h) (by simp)
      · split at h
        · exact absurd (congrArg Prod.fst h) (by simp)
        · obtain ⟨h1, h2⟩ := Prod.mk.injEq .. ▸ h
          rw [← h2, Except.ok.inj h1]
  subst hc
  exact ⟨rfl, fun env2 argv2 => rfl⟩

/-- Witness for C9: resolve from the environment once, then re-resolve
with a different environment and argv. -/
theorem credential_resolved_once_witness :
    getFbAccessToken (some "TOKEN") (some "OTHER") ["--fb-token", "X"] =
      (.ok "TOKEN", some "TOKEN") := by
  exact (credential_resolved_once (some "TOKEN") [] "TOKEN" (some "TOKEN") rfl).2
    (some "OTHER") ["--fb-token", "X"]

theorem timeRangeParams_time_range (dp : Option String) (s u : String) :
    timeRangeParams dp (some [("since", s), ("until", u)]) =
      [("time_range", .jstr (jsonDumps (jvalOfStrDict [("since", s), ("until", u)])))] := by
  rfl

theorem timeRangeParams_date_preset (p : String) (hp : p ≠ "") :
    timeRangeParams (some p) none = [("date_preset", .jstr p)] := by
  simp [timeRangeParams, hp]

/-- Claim C7: in each of the three tools accepting both a date preset and
an explicit time range, supplying a `{since, until}` time range puts the
serialized range into the outgoing parameters and omits `date_preset`
entirely, regardless of the preset argument; with no time range and a
(non-empty) preset, `date_preset` is sent. -/
theorem date_window_precedence :
    (∀ tok fields dp s u,
        ("time_range", JVal.jstr (jsonDumps (jvalOfStrDict [("since", s), ("until", u)]))) ∈
          getCampaignInsightsParams tok fields dp (some [("since", s), ("until", u)])
        ∧ (∀ v, ("date_preset", v) ∉
            getCampaignInsightsParams tok fields dp (some [("since", s), ("until", u)])))
    ∧ (∀ tok fields p, p ≠ "" →
        ("date_preset", JVal.jstr p) ∈ getCampaignInsightsParams tok fields (some p) none)
    ∧ (∀ tok limit ms dp s u,
        ("time_range", JVal.jstr (jsonDumps (jvalOfStrDict [("since", s), ("until", u)]))) ∈
          comprehensiveInsightsParams tok limit ms dp (some [("since", s), ("until", u)])
        ∧ (∀ v, ("date_preset", v) ∉
            comprehensiveInsightsParams tok limit ms dp (some [("since", s), ("until", u)])))
    ∧ (∀ tok limit ms p, p ≠ "" →
        ("date_preset", JVal.jstr p) ∈ comprehensiveInsightsParams tok limit ms (some p) none)
    ∧ (∀ tok limit dp s u,
        ("time_range", JVal.jstr (jsonDumps (jvalOfStrDict [("since", s), ("until", u)]))) ∈
          summaryReportParams tok limit dp (some [("since", s), ("until", u)])
        ∧ (∀ v, ("date_preset", v) ∉
            summaryReportParams tok limit dp (some [("since", s), ("until", u)])))
    ∧ (∀ tok limit p, p ≠ "" →
        ("date_preset", JVal.jstr p) ∈ summaryReportParams tok limit (some p) none) := by
  refine ⟨?_, ?_, ?_, ?_, ?_, ?_⟩
  · intro tok fields dp s u
    constructor
    · simp [getCampaignInsightsParams, timeRangeParams_time_range]
    · intro v
      simp [getCampaignInsightsParams, timeRangeParams_time_range]
  · intro tok fields p hp
    simp [getCampaignInsightsParams, timeRangeParams_date_preset p hp]
  · intro tok limit ms dp s u
    constructor
    · simp [comprehensiveInsightsParams, timeRangeParams_time_range]
    · intro v
      simp [comprehensiveInsightsParams, timeRangeParams_time_range]
  · intro tok limit ms p hp
    simp [comprehensiveInsightsParams, timeRangeParams_date_preset p hp]
  · intro tok limit dp s u
    constructor
    · simp [summaryReportParams, timeRangeParams_time_range]
    · intro v
      simp [summaryReportParams, timeRangeParams_time_range]
  · intro tok limit p hp
    simp [summaryReportParams, timeRangeParams_date_preset p hp]

/-- Witness for C7: both arguments supplied; the serialized time range is
sent and `date_preset` is absent. -/
theorem date_window_precedence_witness :
    ("time_range", JVal.jstr "\x7b\x22since\x22: \x222024-01-01\x22, \x22until\x22: \x222024-01-31\x22\x7d") ∈
      getCampaignInsightsParams "TOK" none (some "last_30d")
        (some [("since", "2024-01-01"), ("until", "2024-01-31")])
    ∧ (("date_preset", JVal.jstr "last_30d") ∉
        getCampaignInsightsParams "TOK" none (some "last_30d")
          (some [("since", "2024-01-01"), ("until", "2024-01-31")]))
    ∧ ("date_preset", JVal.jstr "last_30d") ∈
        getCampaignInsightsParams "TOK" none (some "last_30d") none := by
  have h := date_window_precedence.1 "TOK" none (some "last_30d") "2024-01-01" "2024-01-31"
  have h2 := date_window_precedence.2.1 "TOK" none "last_30d" (by decide)
  exact ⟨by simpa using h.1, h.2 (JVal.jstr "last_30d"), h2⟩

theorem getActionValueLoop_spec (key : String) :
    ∀ items : List JVal, items.all wfAction = true →
      getActionValueLoop items key = .ok (firstSubstrMatchValue items key) := by
  intro items
  induction items with
  | nil => intro _; rfl
  | cons a rest ih =>
      intro h
      rw [List.all_cons, Bool.and_eq_true] at h
      obtain ⟨ha, hrest⟩ := h
      cases a with
      | jobj d =>
          cases hat : dictGet d "action_type" with
          | none =>
              by_cases hb : strContains key "" = true
              · simp [getActionValueLoop, pyGetD, pyGet, hat, pyIn, hb, map_ok, ok_bind,
                  firstSubstrMatchValue, List.find?, actionTypeStr, actionValue]
              · simp only [Bool.not_eq_true] at hb
                simp [getActionValueLoop, pyGetD, pyGet, hat, pyIn, hb, map_ok, ok_bind,
                  firstSubstrMatchValue, List.find?, actionTypeStr, ih hrest]
          | some v =>
              cases v with
              | jstr s =>
                  by_cases hb : strContains key s = true
                  · simp [getActionValueLoop, pyGetD, pyGet, hat, pyIn, hb, map_ok, ok_bind,
                      firstSubstrMatchValue, List.find?, actionTypeStr, actionValue]
                  · simp only [Bool.not_eq_true] at hb
                    simp [getActionValueLoop, pyGetD, pyGet, hat, pyIn, hb, map_ok, ok_bind,
                      firstSubstrMatchValue, List.find?, actionTypeStr, ih hrest]
              | jnull => simp [wfAction, hat] at ha
              | jbool b => simp [wfAction, hat] at ha
              | jnum q => simp [wfAction, hat] at ha
              | jarr l => simp [wfAction, hat] at ha
              | jobj l => simp [wfAction, hat] at ha
      | jnull => simp [wfAction] at ha
      | jbool b => simp [wfAction] at ha
      | jnum q => simp [wfAction] at ha
      | jstr s => simp [wfAction] at ha
      | jarr l => simp [wfAction] at ha

theorem getCostPerActionLoop_spec (key : String) :
    ∀ items : List JVal, items.all wfAction = true →
      getCostPerActionLoop items key = .ok (firstSubstrMatchValue items key) := by
  intro items
  induction items with
  | nil => intro _; rfl
  | cons a rest ih =>
      intro h
      rw [List.all_cons, Bool.and_eq_true] at h
      obtain ⟨ha, hrest⟩ := h
      cases a with
      | jobj d =>
          cases hat : dictGet d "action_type" with
          | none =>
              by_cases hb : strContains key "" = true
              · simp [getCostPerActionLoop, pyGetD, pyGet, hat, pyIn, hb, map_ok, ok_bind,
                  firstSubstrMatchValue, List.find?, actionTypeStr, actionValue]
              · simp only [Bool.not_eq_true] at hb
                simp [getCostPerActionLoop, pyGetD, pyGet, hat, pyIn, hb, map_ok, ok_bind,
                  firstSubstrMatchValue, List.find?, actionTypeStr, ih hrest]
          | some v =>
              cases v with
              | jstr s =>
                  by_cases hb : strContains key s = true
                  · simp [getCostPerActionLoop, pyGetD, pyGet, hat, pyIn, hb, map_ok, ok_bind,
                      firstSubstrMatchValue, List.find?, actionTypeStr, actionValue]
                  · simp only [Bool.not_eq_true] at hb
                    simp [getCostPerActionLoop, pyGetD, pyGet, hat, pyIn, hb, map_ok, ok_bind,
                      firstSubstrMatchValue, List.find?, actionTypeStr, ih hrest]
              | jnull => simp [wfAction, hat] at ha
              | jbool b => simp [wfAction, hat] at ha
              | jnum q => simp [wfAction, hat] at ha
              | jarr l => simp [wfAction, hat] at ha
              | jobj l => simp [wfAction, hat] at ha
      | jnull => simp [wfAction] at ha
      | jbool b => simp [wfAction] at ha
      | jnum q => simp [wfAction] at ha
      | jstr s => simp [wfAction] at ha
      | jarr l => simp [wfAction] at ha

/-- Claim C5 counterexample: with a single matching `purchase` entry whose
value is the empty string, the first lookup returns a non-null result
(`""`), yet `purchases` is `None` — the fallback chain is Python `or`,
which selects the first *truthy* result, not the first non-null one. -/
theorem purchases_first_nonnull_counterexample :
    getActionValue (.jarr [.jobj [("action_type", .jstr "purchase"),
        ("value", .jstr "")]]) "purchase" = .ok (some (.jstr ""))
    ∧ purchasesOf (.jarr [.jobj [("action_type", .jstr "purchase"),
        ("value", .jstr "")]]) = .ok none := ⟨rfl, rfl⟩

/-- Claim C5 (amended): on well-formed action lists the flattener returns
the `value` of the first entry whose `action_type` contains the key as a
substring (`None` when no entry matches); `purchases` and
`cost_per_purchase` apply the priority-ordered fallback over the four
substrings but return the first Python-*truthy* (non-null, non-empty)
lookup result — falling through null and empty-string results alike — and
when all four lookups are falsy they return the fourth lookup's result. -/
theorem action_flattening_semantics :
    (∀ (items : List JVal) (key : String), items.all wfAction = true →
        getActionValue (.jarr items) key = .ok (firstSubstrMatchValue items key))
    ∧ (∀ (items : List JVal) (key : String), items.all wfAction = true →
        getCostPerAction (.jarr items) key = .ok (firstSubstrMatchValue items key))
    ∧ (∀ actions r1 r2 r3 r4,
        getActionValue actions "purchase" = .ok r1 →
        getActionValue actions "offsite_conversion.fb_pixel_purchase" = .ok r2 →
        getActionValue actions "offsite_conversion" = .ok r3 →
        getActionValue actions "onsite_conversion" = .ok r4 →
        purchasesOf actions = .ok (if truthyO r1 then r1
          else if truthyO r2 then r2 else if truthyO r3 then r3 else r4))
    ∧ (∀ costPerActions r1 r2 r3 r4,
        getCostPerAction costPerActions "purchase" = .ok r1 →
        getCostPerAction costPerActions "offsite_conversion.fb_pixel_purchase" = .ok r2 →
        getCostPerAction costPerActions "offsite_conversion" = .ok r3 →
        getCostPerAction costPerActions "onsite_conversion" = .ok r4 →
        costPerPurchaseOf costPerActions = .ok (if truthyO r1 then r1
          else if truthyO r2 then r2 else if truthyO r3 then r3 else r4)) := by
  refine ⟨?_, ?_, ?_, ?_⟩
  · intro items key h
    cases items with
    | nil => rfl
    | cons a rest =>
        simp only [getActionValue, pyTruthy, List.isEmpty_cons, Bool.not_false,
          Bool.not_true, if_false, ite_false, pyIter, ok_bind]
        simp [getActionValueLoop_spec key (a :: rest) h]
  · intro items key h
    cases items with
    | nil => rfl
    | cons a rest =>
        simp only [getCostPerAction, pyTruthy, List.isEmpty_cons, Bool.not_false,
          Bool.not_true, if_false, ite_false, pyIter, ok_bind]
        simp [getCostPerActionLoop_spec key (a :: rest) h]
  · intro actions r1 r2 r3 r4 h1 h2 h3 h4
    simp only [purchasesOf, pyOr2, h1, h2, h3, h4, ok_bind]
    cases hT1 : truthyO r1 with
    | true => simp [hT1]
    | false =>
        cases hT2 : truthyO r2 with
        | true => simp [hT1, hT2]
        | false =>
            cases hT3 : truthyO r3 with
            | true => simp [hT1, hT2, hT3]
            | false => simp [hT1, hT2, hT3]
  · intro costPerActions r1 r2 r3 r4 h1 h2 h3 h4
    simp only [costPerPurchaseOf, pyOr2, h1, h2, h3, h4, ok_bind]
    cases hT1 : truthyO r1 with
    | true => simp [hT1]
    | false =>
        cases hT2 : truthyO r2 with
        | true => simp [hT1, hT2]
        | false =>
            cases hT3 : truthyO r3 with
            | true => simp [hT1, hT2, hT3]
            | false => simp [hT1, hT2, hT3]

/-- Witness for the amended C5 at the spec's example: a single
`offsite_conversion.fb_pixel_purchase` entry with value `"3"` and no exact
`purchase` entry yields `purchases = "3"`. -/
theorem action_flattening_semantics_witness :
    getActionValue (.jarr [.jobj [("action_type",
        .jstr "offsite_conversion.fb_pixel_purchase"), ("value", .jstr "3")]])
      "offsite_conversion.fb_pixel_purchase" = .ok (some (.jstr "3"))
    ∧ purchasesOf (.jarr [.jobj [("action_type",
        .jstr "offsite_conversion.fb_pixel_purchase"), ("value", .jstr "3")]]) =
      .ok (some (.jstr "3")) := by
  constructor
  · exact (action_flattening_semantics.1
      [.jobj [("action_type", .jstr "offsite_conversion.fb_pixel_purchase"),
        ("value", .jstr "3")]]
      "offsite_conversion.fb_pixel_purchase" (by decide)).trans (by rfl)
  · have h := action_flattening_semantics.2.2.1
      (.jarr [.jobj [("action_type", .jstr "offsite_conversion.fb_pixel_purchase"),
        ("value", .jstr "3")]])
      (some (.jstr "3")) (some (.jstr "3")) (some (.jstr "3")) none rfl rfl rfl rfl
    exact h.trans (by rfl)

theorem buildSummaryRow_cpa {ad : JVal} {row : SummaryRow} {s : ℚ} {c : ℤ}
    (h : buildSummaryRow ad = .ok (row, s, c)) :
    ∃ costPerActions cpa,
      pyGetD ad "cost_per_action_type" (.jarr []) = .ok costPerActions
      ∧ getCpa costPerActions "purchase" = .ok cpa
      ∧ row.cpa = (match cpa with
                   | some q => if q = 0 then none else some (pyRound2 q)
                   | none => none) := by
  unfold buildSummaryRow at h
  obtain ⟨spendV, h1, h⟩ := bindOk h
  obtain ⟨spend, h2, h⟩ := bindOk h
  obtain ⟨actions, h3, h⟩ := bindOk h
  obtain ⟨conversions, h4, h⟩ := bindOk h
  obtain ⟨costPerActions, h5, h⟩ := bindOk h
  obtain ⟨cpa, h6, h⟩ := bindOk h
  obtain ⟨adIdV, h7, h⟩ := bindOk h
  obtain ⟨adNameV, h8, h⟩ := bindOk h
  obtain ⟨campaignIdV, h9, h⟩ := bindOk h
  obtain ⟨campaignNameV, h10, h⟩ := bindOk h
  obtain ⟨adsetIdV, h11, h⟩ := bindOk h
  obtain ⟨adsetNameV, h12, h⟩ := bindOk h
  obtain ⟨impressionsV, h13, h⟩ := bindOk h
  obtain ⟨impressions, h14, h⟩ := bindOk h
  obtain ⟨clicksV, h15, h⟩ := bindOk h
  obtain ⟨clicks, h16, h⟩ := bindOk h
  obtain ⟨ctrV, h17, h⟩ := bindOk h
  obtain ⟨ctr, h18, h⟩ := bindOk h
  obtain ⟨cpcV, h19, h⟩ := bindOk h
  obtain ⟨cpc, h20, h⟩ := bindOk h
  obtain ⟨cpmV, h21, h⟩ := bindOk h
  obtain ⟨cpm, h22, h⟩ := bindOk h
  have hp := pureOk h
  obtain ⟨hrow, _⟩ := Prod.mk.inj hp
  refine ⟨costPerActions, cpa, h5, h6, ?_⟩
  rw [← hrow]

/-- Claim C10: in the summary report a zero cost-per-purchase is reported
as `None` (indistinguishable from an absent one), because the `cpa` field
is guarded by Python truthiness; every non-zero CPA is reported rounded to
two decimals. -/
theorem summary_zero_cpa_hidden :
    ∀ ad row s c cpaList,
      buildSummaryRow ad = .ok (row, s, c) →
      pyGetD ad "cost_per_action_type" (.jarr []) = .ok cpaList →
      (∀ q, getCpa cpaList "purchase" = .ok (some q) →
        (q = 0 → row.cpa = none) ∧ (q ≠ 0 → row.cpa = some (pyRound2 q)))
      ∧ (getCpa cpaList "purchase" = .ok none → row.cpa = none) := by
  intro ad row s c cpaList h hg
  obtain ⟨cpl, cpa, h5, h6, hcpa⟩ := buildSummaryRow_cpa h
  have hcl : cpl = cpaList := Except.ok.inj (h5.symm.trans hg)
  subst hcl
  constructor
  · intro q hq
    have hcq : cpa = some q := Except.ok.inj (h6.symm.trans hq)
    subst hcq
    constructor
    · intro h0; rw [hcpa]; simp [h0]
    · intro h0; rw [hcpa]; simp [h0]
  · intro hq
    have hcq : cpa = none := Except.ok.inj (h6.symm.trans hq)
    subst hcq
    rw [hcpa]

/-- Witness for C10: a matched purchase entry with value `0` yields
`cpa = None`; one with value `5/2` yields the rounded CPA. -/
theorem summary_zero_cpa_hidden_witness :
    (buildSummaryRow (.jobj [("cost_per_action_type", .jarr
        [.jobj [("action_type", .jstr "purchase"), ("value", .jnum 0)]])])).map
      (fun p => p.1.cpa) = .ok none
    ∧ (buildSummaryRow (.jobj [("cost_per_action_type", .jarr
        [.jobj [("action_type", .jstr "purchase"), ("value", .jnum (5 / 2))]])])).map
      (fun p => p.1.cpa) = .ok (some (pyRound2 (5 / 2))) := by
  constructor
  · obtain ⟨row, s, c, hrow⟩ :
        ∃ row s c, buildSummaryRow (.jobj [("cost_per_action_type", .jarr
          [.jobj [("action_type", .jstr "purchase"), ("value", .jnum 0)]])]) =
          .ok (row, s, c) := ⟨_, _, _, rfl⟩
    have h := ((summary_zero_cpa_hidden _ row s c
        (.jarr [.jobj [("action_type", .jstr "purchase"), ("value", .jnum 0)]])
        hrow rfl).1 0 rfl).1 rfl
    rw [hrow, map_ok, h]
  · obtain ⟨row, s, c, hrow⟩ :
        ∃ row s c, buildSummaryRow (.jobj [("cost_per_action_type", .jarr
          [.jobj [("action_type", .jstr "purchase"), ("value", .jnum (5 / 2))]])]) =
          .ok (row, s, c) := ⟨_, _, _, rfl⟩
    have h := ((summary_zero_cpa_hidden _ row s c
        (.jarr [.jobj [("action_type", .jstr "purchase"), ("value", .jnum (5 / 2))]])
        hrow rfl).1 (5 / 2) rfl).2 (by norm_num)
    rw [hrow, map_ok, h]

theorem buildRow_fields {adId ad insightsData : JVal} {row : ReportRow}
    (h : buildRow adId ad insightsData = .ok row) :
    row.ad_id = adId
    ∧ campaignIdOf ad = .ok row.campaign_id
    ∧ adSetIdOf ad = .ok row.ad_set_id := by
  unfold buildRow at h
  obtain ⟨creative, e1, h⟩ := bindOk h
  obtain ⟨assetUrl, e2, h⟩ := bindOk h
  obtain ⟨actions, e3, h⟩ := bindOk h
  obtain ⟨videoActions, e4, h⟩ := bindOk h
  obtain ⟨costPerActions, e5, h⟩ := bindOk h
  obtain ⟨purchases, e6, h⟩ := bindOk h
  obtain ⟨costPerPurchase, e7, h⟩ := bindOk h
  obtain ⟨adCreativeId, e8, h⟩ := bindOk h
  obtain ⟨adName, e9, h⟩ := bindOk h
  obtain ⟨campaignId, e10, h⟩ := bindOk h
  obtain ⟨campaignName, e11, h⟩ := bindOk h
  obtain ⟨adSetId, e12, h⟩ := bindOk h
  obtain ⟨adSetName, e13, h⟩ := bindOk h
  obtain ⟨adStatus, e14, h⟩ := bindOk h
  obtain ⟨delivery, e15, h⟩ := bindOk h
  obtain ⟨reach, e16, h⟩ := bindOk h
  obtain ⟨impressions, e17, h⟩ := bindOk h
  obtain ⟨frequency, e18, h⟩ := bindOk h
  obtain ⟨clicksAll, e19, h⟩ := bindOk h
  obtain ⟨uniqueClicksAll, e20, h⟩ := bindOk h
  obtain ⟨ctrAll, e21, h⟩ := bindOk h
  obtain ⟨uniqueCtrAll, e22, h⟩ := bindOk h
  obtain ⟨cpcAll, e23, h⟩ := bindOk h
  obtain ⟨cpmV, e24, h⟩ := bindOk h
  obtain ⟨v2s, e25, h⟩ := bindOk h
  obtain ⟨video3SecPlays, e26, h⟩ := bindOk h
  obtain ⟨p25, e27, h⟩ := bindOk h
  obtain ⟨videoPlays25, e28, h⟩ := bindOk h
  obtain ⟨p50, e29, h⟩ := bindOk h
  obtain ⟨videoPlays50, e30, h⟩ := bindOk h
  obtain ⟨p75, e31, h⟩ := bindOk h
  obtain ⟨videoPlays75, e32, h⟩ := bindOk h
  obtain ⟨p100, e33, h⟩ := bindOk h
  obtain ⟨videoPlays100, e34, h⟩ := bindOk h
  obtain ⟨videoPlays, e35, h⟩ := bindOk h
  obtain ⟨thru, e36, h⟩ := bindOk h
  obtain ⟨thruPlays, e37, h⟩ := bindOk h
  obtain ⟨addsToCart, e38, h⟩ := bindOk h
  obtain ⟨contentViews, e39, h⟩ := bindOk h
  obtain ⟨checkoutsInitiated, e40, h⟩ := bindOk h
  obtain ⟨landingPageViews, e41, h⟩ := bindOk h
  obtain ⟨linkClicks, e42, h⟩ := bindOk h
  obtain ⟨outboundClicks, e43, h⟩ := bindOk h
  obtain ⟨postReactions, e44, h⟩ := bindOk h
  obtain ⟨postComments, e45, h⟩ := bindOk h
  obtain ⟨postSaves, e46, h⟩ := bindOk h
  obtain ⟨postShares, e47, h⟩ := bindOk h
  obtain ⟨postEngagement, e48, h⟩ := bindOk h
  obtain ⟨pageLikes, e49, h⟩ := bindOk h
  obtain ⟨amountSpent, e50, h⟩ := bindOk h
  have hrow := pureOk h
  rw [← hrow]
  exact ⟨rfl, e10, e12⟩

theorem campaignIdOf_nested {ad : JVal} {cd : List (String × JVal)} {cid : JVal}
    (h1 : pyGet ad "campaign" = .ok (some (.jobj cd)))
    (h2 : dictGet cd "id" = some cid) :
    campaignIdOf ad = .ok (some cid) := by
  have hne : cd ≠ [] := by
    intro hcd; subst hcd; exact Option.noConfusion h2
  have ht : truthyO (some (.jobj cd)) = true := by
    cases cd with
    | nil => exact absurd rfl hne
    | cons p rest => rfl
  unfold campaignIdOf
  rw [h1, ok_bind]
  simp only [ht, if_true]
  rw [pyGetD, h1, map_ok]
  rw [show ((some (JVal.jobj _)).getD (JVal.jobj [])) = _ from rfl, ok_bind]
  simp [pyGet, h2]

theorem campaignIdOf_flat {ad : JVal} {flat : Option JVal}
    (h1 : pyGet ad "campaign" = .ok none)
    (h2 : pyGet ad "campaign_id" = .ok flat) :
    campaignIdOf ad = .ok flat := by
  unfold campaignIdOf
  rw [h1, ok_bind]
  simpa [truthyO] using h2

theorem adSetIdOf_nested {ad : JVal} {sd : List (String × JVal)} {sid : JVal}
    (h1 : pyGet ad "adset" = .ok (some (.jobj sd)))
    (h2 : dictGet sd "id" = some sid) :
    adSetIdOf ad = .ok (some sid) := by
  have hne : sd ≠ [] := by
    intro hsd; subst hsd; exact Option.noConfusion h2
  have ht : truthyO (some (.jobj sd)) = true := by
    cases sd with
    | nil => exact absurd rfl hne
    | cons p rest => rfl
  unfold adSetIdOf
  rw [h1, ok_bind]
  simp only [ht, if_true]
  rw [pyGetD, h1, map_ok]
  rw [show ((some (JVal.jobj _)).getD (JVal.jobj [])) = _ from rfl, ok_bind]
  simp [pyGet, h2]

theorem adSetIdOf_flat {ad : JVal} {flat : Option JVal}
    (h1 : pyGet ad "adset" = .ok none)
    (h2 : pyGet ad "adset_id" = .ok flat) :
    adSetIdOf ad = .ok flat := by
  unfold adSetIdOf
  rw [h1, ok_bind]
  simpa [truthyO] using h2

/-- Claim C8: every row built by the comprehensive report prefers the
nested `campaign{id,name}` / `adset{id,name}` sub-objects over the flat id
fields: a nested object carrying an id determines the row's `campaign_id`
(`ad_set_id`) regardless of any flat field, and only an absent nested
object falls back to the flat id. -/
theorem comprehensive_nested_ids_preferred :
    (∀ adId ad insightsData row cd cid,
        buildRow adId ad insightsData = .ok row →
        pyGet ad "campaign" = .ok (some (.jobj cd)) →
        dictGet cd "id" = some cid →
        row.campaign_id = some cid)
    ∧ (∀ adId ad insightsData row flat,
        buildRow adId ad insightsData = .ok row →
        pyGet ad "campaign" = .ok none →
        pyGet ad "campaign_id" = .ok flat →
        row.campaign_id = flat)
    ∧ (∀ adId ad insightsData row sd sid,
        buildRow adId ad insightsData = .ok row →
        pyGet ad "adset" = .ok (some (.jobj sd)) →
        dictGet sd "id" = some sid →
        row.ad_set_id = some sid)
    ∧ (∀ adId ad insightsData row flat,
        buildRow adId ad insightsData = .ok row →
        pyGet ad "adset" = .ok none →
        pyGet ad "adset_id" = .ok flat →
        row.ad_set_id = flat) := by
  refine ⟨?_, ?_, ?_, ?_⟩
  · intro adId ad insightsData row cd cid h h1 h2
    obtain ⟨-, hc, -⟩ := buildRow_fields h
    exact (Except.ok.inj ((campaignIdOf_nested h1 h2).symm.trans hc)).symm
  · intro adId ad insightsData row flat h h1 h2
    obtain ⟨-, hc, -⟩ := buildRow_fields h
    exact (Except.ok.inj ((campaignIdOf_flat h1 h2).symm.trans hc)).symm
  · intro adId ad insightsData row sd sid h h1 h2
    obtain ⟨-, -, hs⟩ := buildRow_fields h
    exact (Except.ok.inj ((adSetIdOf_nested h1 h2).symm.trans hs)).symm
  · intro adId ad insightsData row flat h h1 h2
    obtain ⟨-, -, hs⟩ := buildRow_fields h
    exact (Except.ok.inj ((adSetIdOf_flat h1 h2).symm.trans hs)).symm

/-- Witness for C8: nested campaign id `"1"` wins over flat
`campaign_id = "2"`; with no nested adset object the flat `adset_id`
is used. -/
theorem comprehensive_nested_ids_preferred_witness :
    (buildRow (.jstr "ad1")
      (.jobj [("id", .jstr "ad1"),
              ("campaign", .jobj [("id", .jstr "1"), ("name", .jstr "A")]),
              ("campaign_id", .jstr "2"),
              ("adset_id", .jstr "77")])
      (.jobj [("ad_id", .jstr "ad1")])).map
        (fun r => (r.campaign_id, r.ad_set_id)) =
      .ok (some (.jstr "1"), some (.jstr "77")) := by
  obtain ⟨row, hrow⟩ :
      ∃ row, buildRow (.jstr "ad1")
        (.jobj [("id", .jstr "ad1"),
                ("campaign", .jobj [("id", .jstr "1"), ("name", .jstr "A")]),
                ("campaign_id", .jstr "2"),
                ("adset_id", .jstr "77")])
        (.jobj [("ad_id", .jstr "ad1")]) = .ok row := ⟨_, rfl⟩
  have h1 := comprehensive_nested_ids_preferred.1 (.jstr "ad1") _ _ row
    [("id", .jstr "1"), ("name", .jstr "A")] (.jstr "1") hrow rfl rfl
  have h2 := comprehensive_nested_ids_preferred.2.2.2 (.jstr "ad1") _ _ row
    (some (.jstr "77")) hrow rfl rfl
  rw [hrow, map_ok, h1, h2]

theorem assocGet_mem {d : List (JVal × JVal)} {k v : JVal}
    (h : assocGet d k = some v) : ∃ k2, (k2, v) ∈ d := by
  induction d with
  | nil => exact Option.noConfusion h
  | cons p rest ih =>
      obtain ⟨k2, v2⟩ := p
      rw [assocGet] at h
      by_cases hb : JVal.beq k2 k = true
      · rw [if_pos hb] at h
        exact ⟨k2, by rw [Option.some.inj h]; exact List.mem_cons_self _ _⟩
      · rw [if_neg hb] at h
        obtain ⟨k3, hm⟩ := ih h
        exact ⟨k3, List.mem_cons_of_mem _ hm⟩

theorem pyIndex_ok_truthy {x : JVal} {key : String} {k : JVal}
    (h : pyIndex x key = .ok k) : pyTruthy x = true := by
  cases x with
  | jobj d =>
      cases d with
      | nil => exact absurd h (by simp [pyIndex, dictGet])
      | cons p rest => rfl
  | jnull => exact Except.noConfusion h
  | jbool b => exact Except.noConfusion h
  | jnum q => exact Except.noConfusion h
  | jstr s => exact Except.noConfusion h
  | jarr l => exact Except.noConfusion h

theorem pyInsert_mem {acc : List (JVal × JVal)} {k v : JVal} :
    ∀ p ∈ pyInsert acc k v, p ∈ acc ∨ p.2 = v := by
  induction acc with
  | nil =>
      intro p hp
      rw [pyInsert] at hp
      rcases List.mem_singleton.mp hp with h
      exact Or.inr (by rw [h])
  | cons q rest ih =>
      intro p hp
      obtain ⟨k2, v2⟩ := q
      rw [pyInsert] at hp
      by_cases hb : JVal.beq k2 k = true
      · rw [if_pos hb] at hp
        rcases List.mem_cons.mp hp with h | h
        · exact Or.inr (by rw [h])
        · exact Or.inl (List.mem_cons_of_mem _ h)
      · rw [if_neg hb] at hp
        rcases List.mem_cons.mp hp with h | h
        · exact Or.inl (by rw [h]; exact List.mem_cons_self _ _)
        · rcases ih p h with h2 | h2
          · exact Or.inl (List.mem_cons_of_mem _ h2)
          · exact Or.inr h2

theorem buildById_truthy {key : String} :
    ∀ {items : List JVal} {acc m : List (JVal × JVal)},
      (∀ p ∈ acc, pyTruthy p.2 = true) → buildById key acc items = .ok m →
      ∀ p ∈ m, pyTruthy p.2 = true := by
  intro items
  induction items with
  | nil =>
      intro acc m hacc h
      rw [buildById] at h
      rw [← Except.ok.inj h]
      exact hacc
  | cons x rest ih =>
      intro acc m hacc h
      rw [buildById] at h
      obtain ⟨k, hk, h⟩ := bindOk h
      refine ih ?_ h
      intro p hp
      rcases pyInsert_mem p hp with h2 | h2
      · exact hacc p h2
      · rw [h2]; exact pyIndex_ok_truthy hk

theorem buildRows_ids {ins : List (JVal × JVal)}
    (hv : ∀ p ∈ ins, pyTruthy p.2 = true) :
    ∀ {ads : List (JVal × JVal)} {rows : List ReportRow},
      buildRows ins ads = .ok rows →
      rows.map (fun r => r.ad_id) =
        (ads.filter (fun p => (assocGet ins p.1).isSome)).map (fun p => p.1) := by
  intro ads
  induction ads with
  | nil =>
      intro rows h
      rw [buildRows] at h
      rw [← Except.ok.inj h]
      rfl
  | cons p rest ih =>
      intro rows h
      obtain ⟨adId, ad⟩ := p
      rw [buildRows] at h
      cases hA : assocGet ins adId with
      | none =>
          rw [hA] at h
          split at h
          · rw [List.filter_cons]
            simp only [hA, Option.isSome_none, Bool.false_eq_true, if_false]
            exact ih h
          · rename_i hcond
            exact absurd (by decide) hcond
      | some v =>
          have hvT : pyTruthy v = true := by
            obtain ⟨k2, hm⟩ := assocGet_mem hA
            exact hv (k2, v) hm
          rw [hA] at h
          split at h
          · rename_i hcond
            rw [Option.getD_some] at hcond
            exact absurd hvT (by simpa using hcond)
          · obtain ⟨row, hr, h⟩ := bindOk h
            obtain ⟨rows2, hr2, h⟩ := bindOk h
            rw [← pureOk h]
            rw [List.filter_cons]
            simp only [hA, Option.isSome_some, if_true]
            rw [List.map_cons, List.map_cons]
            rw [(buildRow_fields hr).1, ih hr2]

/-- Claim C1: every ad from the ads fetch with no matching insight record
(keyed by ad id) is excluded from the comprehensive report's `data`, and
the summary's `total_ads` equals the number of rows in `data`, which is the
number of ads present in both fetches. -/
theorem comprehensive_join_total_ads :
    ∀ (adsData insData : List JVal) (actId : String) (dp : Option String)
      (tr : Option StrDict) (cid : Option String) (ms : ℚ)
      (allAds insightsByAdId : List (JVal × JVal)) (rep : ComprehensiveReport),
      buildById "id" [] adsData = .ok allAds →
      buildById "ad_id" [] insData = .ok insightsByAdId →
      getComprehensiveAdReport (.ok (.jobj [("data", .jarr adsData)]))
          (.ok (.jobj [("data", .jarr insData)])) actId dp tr cid ms = .ok rep →
      (∀ p ∈ allAds, assocGet insightsByAdId p.1 = none →
          ∀ row ∈ rep.data, row.ad_id ≠ p.1)
      ∧ rep.summary.total_ads = rep.data.length
      ∧ rep.data.length =
          (allAds.filter (fun p => (assocGet insightsByAdId p.1).isSome)).length := by
  intro adsData insData actId dp tr cid ms allAds insightsByAdId rep hA hI hR
  unfold getComprehensiveAdReport at hR
  rw [show makeGraphApiCall (.ok (.jobj [("data", .jarr adsData)])) =
      .ok (.jobj [("data", .jarr adsData)]) from rfl, ok_bind] at hR
  rw [show pyGetD (.jobj [("data", .jarr adsData)]) "data" (.jarr []) =
      .ok (.jarr adsData) from rfl, ok_bind] at hR
  rw [show pyIter (.jarr adsData) = .ok adsData from rfl, ok_bind] at hR
  rw [hA, ok_bind] at hR
  rw [show makeGraphApiCall (.ok (.jobj [("data", .jarr insData)])) =
      .ok (.jobj [("data", .jarr insData)]) from rfl, ok_bind] at hR
  rw [show pyGetD (.jobj [("data", .jarr insData)]) "data" (.jarr []) =
      .ok (.jarr insData) from rfl, ok_bind] at hR
  rw [show pyIter (.jarr insData) = .ok insData from rfl, ok_bind] at hR
  rw [hI, ok_bind] at hR
  obtain ⟨rows, hrows, hR⟩ := bindOk hR
  have hrep := pureOk hR
  subst hrep
  have hv : ∀ p ∈ insightsByAdId, pyTruthy p.2 = true :=
    buildById_truthy (fun p hp => absurd hp (List.not_mem_nil p)) hI
  have hids := buildRows_ids hv hrows
  refine ⟨?_, rfl, ?_⟩
  · intro p hp hnone row hrow hEq
    have hmem : row.ad_id ∈ rows.map (fun r => r.ad_id) :=
      List.mem_map_of_mem _ hrow
    rw [hids] at hmem
    obtain ⟨q, hqmem, hq⟩ := List.mem_map.mp hmem
    have hqf := List.mem_filter.mp hqmem
    rw [hEq] at hq
    rw [hq] at hqf
    rw [hnone] at hqf
    exact absurd hqf.2 (by simp)
  · calc rows.length = (rows.map (fun r => r.ad_id)).length :=
          (List.length_map _ _).symm
      _ = ((allAds.filter (fun p => (assocGet insightsByAdId p.1).isSome)).map
            (fun p => p.1)).length := by rw [hids]
      _ = (allAds.filter (fun p => (assocGet insightsByAdId p.1).isSome)).length :=
          List.length_map _ _

/-- Witness for C1: two ads fetched, one matching insight record — the
unmatched ad is excluded and `total_ads` is 1. -/
theorem comprehensive_join_total_ads_witness :
    (getComprehensiveAdReport
        (.ok (.jobj [("data", .jarr [.jobj [("id", .jstr "a1")],
          .jobj [("id", .jstr "a2")]])]))
        (.ok (.jobj [("data", .jarr [.jobj [("ad_id", .jstr "a2"),
          ("spend", .jstr "7")]])]))
        "act_1" (some "last_30d") none none 0).map
      (fun rep => (rep.summary.total_ads, rep.data.length,
        rep.data.map (fun r => r.ad_id))) =
      .ok (1, 1, [.jstr "a2"]) := by
  have h := comprehensive_join_total_ads
    [.jobj [("id", .jstr "a1")], .jobj [("id", .jstr "a2")]]
    [.jobj [("ad_id", .jstr "a2"), ("spend", .jstr "7")]]
    "act_1" (some "last_30d") none none 0 _ _ _ rfl rfl rfl
  exact rfl
